import Mathlib

set_option maxRecDepth 100000

set_option maxHeartbeats 4000000

/-!
Verification of the LLM response contract layer of the resume-analyzer
application (source: app.py).  Python strings are embedded as lists of
Unicode code points (`List Nat`); fallible Python code is embedded as
`Option`/`Except`-returning functions.  The remote model call is embedded
as an oracle `Nat → Except ErrMsg Resp` giving the outcome of each attempt.
-/

/-- Code points of a Lean string literal, used to write concrete Python
strings in the embedding. -/
def codes (s : String) : List Nat :=
  s.data.map Char.toNat

/-- The characters removed by Python str.strip with no arguments
(Unicode whitespace, per str.isspace). -/
def pyIsSpace (c : Nat) : Bool :=
  [9, 10, 11, 12, 13, 28, 29, 30, 31, 32, 133, 160, 5760,
   8192, 8193, 8194, 8195, 8196, 8197, 8198, 8199, 8200, 8201, 8202,
   8232, 8233, 8239, 8287, 12288].contains c

/-- Python str.lstrip (default argument). -/
def pyLstrip (l : List Nat) : List Nat :=
  l.dropWhile pyIsSpace

/-- Python str.rstrip (default argument). -/
def pyRstrip (l : List Nat) : List Nat :=
  (l.reverse.dropWhile pyIsSpace).reverse

/-- Python str.strip (default argument). -/
def pyStrip (l : List Nat) : List Nat :=
  pyRstrip (pyLstrip l)

/-- Boolean list-prefix test (Python str.startswith). -/
def isPrefixList : List Nat → List Nat → Bool
  | [], _ => true
  | _, [] => false
  | a :: as, b :: bs => a == b && isPrefixList as bs

/-- Python str.endswith. -/
def isSuffixList (suf l : List Nat) : Bool :=
  isPrefixList suf.reverse l.reverse

/-- Python str.find for a single character: index of first occurrence. -/
def pyFind : List Nat → Nat → Option Nat
  | [], _ => none
  | c :: r, t => if c = t then some 0 else (pyFind r t).map (· + 1)

/-- Python substring containment (`needle in hay` on str). -/
def containsSub : List Nat → List Nat → Bool
  | hay, needle =>
    if isPrefixList needle hay then true
    else
      match hay with
      | [] => false
      | _ :: t => containsSub t needle

/-- The code points whose Python str.lower image differs from themselves,
with that image, as in the CPython Unicode database (full case mapping,
so U+0130 expands to two code points); capital sigma U+03A3 is excluded
because its lowering is context-dependent and handled separately. -/
def lowerTable : List (Nat × List Nat) :=
  [
    (65, [97]), (66, [98]), (67, [99]), (68, [100]), (69, [101]), (70, [102]), (71, [103]), (72, [104]),
    (73, [105]), (74, [106]), (75, [107]), (76, [108]), (77, [109]), (78, [110]), (79, [111]), (80, [112]),
    (81, [113]), (82, [114]), (83, [115]), (84, [116]), (85, [117]), (86, [118]), (87, [119]), (88, [120]),
    (89, [121]), (90, [122]), (192, [224]), (193, [225]), (194, [226]), (195, [227]), (196, [228]),
    (197, [229]), (198, [230]), (199, [231]), (200, [232]), (201, [233]), (202, [234]), (203, [235]),
    (204, [236]), (205, [237]), (206, [238]), (207, [239]), (208, [240]), (209, [241]), (210, [242]),
    (211, [243]), (212, [244]), (213, [245]), (214, [246]), (216, [248]), (217, [249]), (218, [250]),
    (219, [251]), (220, [252]), (221, [253]), (222, [254]), (256, [257]), (258, [259]), (260, [261]),
    (262, [263]), (264, [265]), (266, [267]), (268, [269]), (270, [271]), (272, [273]), (274, [275]),
    (276, [277]), (278, [279]), (280, [281]), (282, [283]), (284, [285]), (286, [287]), (288, [289]),
    (290, [291]), (292, [293]), (294, [295]), (296, [297]), (298, [299]), (300, [301]), (302, [303]),
    (304, [105, 775]), (306, [307]), (308, [309]), (310, [311]), (313, [314]), (315, [316]), (317, [318]),
    (319, [320]), (321, [322]), (323, [324]), (325, [326]), (327, [328]), (330, [331]), (332, [333]),
    (334, [335]), (336, [337]), (338, [339]), (340, [341]), (342, [343]), (344, [345]), (346, [347]),
    (348, [349]), (350, [351]), (352, [353]), (354, [355]), (356, [357]), (358, [359]), (360, [361]),
    (362, [363]), (364, [365]), (366, [367]), (368, [369]), (370, [371]), (372, [373]), (374, [375]),
    (376, [255]), (377, [378]), (379, [380]), (381, [382]), (385, [595]), (386, [387]), (388, [389]),
    (390, [596]), (391, [392]), (393, [598]), (394, [599]), (395, [396]), (398, [477]), (399, [601]),
    (400, [603]), (401, [402]), (403, [608]), (404, [611]), (406, [617]), (407, [616]), (408, [409]),
    (412, [623]), (413, [626]), (415, [629]), (416, [417]), (418, [419]), (420, [421]), (422, [640]),
    (423, [424]), (425, [643]), (428, [429]), (430, [648]), (431, [432]), (433, [650]), (434, [651]),
    (435, [436]), (437, [438]), (439, [658]), (440, [441]), (444, [445]), (452, [454]), (453, [454]),
    (455, [457]), (456, [457]), (458, [460]), (459, [460]), (461, [462]), (463, [464]), (465, [466]),
    (467, [468]), (469, [470]), (471, [472]), (473, [474]), (475, [476]), (478, [479]), (480, [481]),
    (482, [483]), (484, [485]), (486, [487]), (488, [489]), (490, [491]), (492, [493]), (494, [495]),
    (497, [499]), (498, [499]), (500, [501]), (502, [405]), (503, [447]), (504, [505]), (506, [507]),
    (508, [509]), (510, [511]), (512, [513]), (514, [515]), (516, [517]), (518, [519]), (520, [521]),
    (522, [523]), (524, [525]), (526, [527]), (528, [529]), (530, [531]), (532, [533]), (534, [535]),
    (536, [537]), (538, [539]), (540, [541]), (542, [543]), (544, [414]), (546, [547]), (548, [549]),
    (550, [551]), (552, [553]), (554, [555]), (556, [557]), (558, [559]), (560, [561]), (562, [563]),
    (570, [11365]), (571, [572]), (573, [410]), (574, [11366]), (577, [578]), (579, [384]), (580, [649]),
    (581, [652]), (582, [583]), (584, [585]), (586, [587]), (588, [589]), (590, [591]), (880, [881]),
    (882, [883]), (886, [887]), (895, [1011]), (902, [940]), (904, [941]), (905, [942]), (906, [943]),
    (908, [972]), (910, [973]), (911, [974]), (913, [945]), (914, [946]), (915, [947]), (916, [948]),
    (917, [949]), (918, [950]), (919, [951]), (920, [952]), (921, [953]), (922, [954]), (923, [955]),
    (924, [956]), (925, [957]), (926, [958]), (927, [959]), (928, [960]), (929, [961]), (932, [964]),
    (933, [965]), (934, [966]), (935, [967]), (936, [968]), (937, [969]), (938, [970]), (939, [971]),
    (975, [983]), (984, [985]), (986, [987]), (988, [989]), (990, [991]), (992, [993]), (994, [995]),
    (996, [997]), (998, [999]), (1000, [1001]), (1002, [1003]), (1004, [1005]), (1006, [1007]), (1012, [952]),
    (1015, [1016]), (1017, [1010]), (1018, [1019]), (1021, [891]), (1022, [892]), (1023, [893]),
    (1024, [1104]), (1025, [1105]), (1026, [1106]), (1027, [1107]), (1028, [1108]), (1029, [1109]),
    (1030, [1110]), (1031, [1111]), (1032, [1112]), (1033, [1113]), (1034, [1114]), (1035, [1115]),
    (1036, [1116]), (1037, [1117]), (1038, [1118]), (1039, [1119]), (1040, [1072]), (1041, [1073]),
    (1042, [1074]), (1043, [1075]), (1044, [1076]), (1045, [1077]), (1046, [1078]), (1047, [1079]),
    (1048, [1080]), (1049, [1081]), (1050, [1082]), (1051, [1083]), (1052, [1084]), (1053, [1085]),
    (1054, [1086]), (1055, [1087]), (1056, [1088]), (1057, [1089]), (1058, [1090]), (1059, [1091]),
    (1060, [1092]), (1061, [1093]), (1062, [1094]), (1063, [1095]), (1064, [1096]), (1065, [1097]),
    (1066, [1098]), (1067, [1099]), (1068, [1100]), (1069, [1101]), (1070, [1102]), (1071, [1103]),
    (1120, [1121]), (1122, [1123]), (1124, [1125]), (1126, [1127]), (1128, [1129]), (1130, [1131]),
    (1132, [1133]), (1134, [1135]), (1136, [1137]), (1138, [1139]), (1140, [1141]), (1142, [1143]),
    (1144, [1145]), (1146, [1147]), (1148, [1149]), (1150, [1151]), (1152, [1153]), (1162, [1163]),
    (1164, [1165]), (1166, [1167]), (1168, [1169]), (1170, [1171]), (1172, [1173]), (1174, [1175]),
    (1176, [1177]), (1178, [1179]), (1180, [1181]), (1182, [1183]), (1184, [1185]), (1186, [1187]),
    (1188, [1189]), (1190, [1191]), (1192, [1193]), (1194, [1195]), (1196, [1197]), (1198, [1199]),
    (1200, [1201]), (1202, [1203]), (1204, [1205]), (1206, [1207]), (1208, [1209]), (1210, [1211]),
    (1212, [1213]), (1214, [1215]), (1216, [1231]), (1217, [1218]), (1219, [1220]), (1221, [1222]),
    (1223, [1224]), (1225, [1226]), (1227, [1228]), (1229, [1230]), (1232, [1233]), (1234, [1235]),
    (1236, [1237]), (1238, [1239]), (1240, [1241]), (1242, [1243]), (1244, [1245]), (1246, [1247]),
    (1248, [1249]), (1250, [1251]), (1252, [1253]), (1254, [1255]), (1256, [1257]), (1258, [1259]),
    (1260, [1261]), (1262, [1263]), (1264, [1265]), (1266, [1267]), (1268, [1269]), (1270, [1271]),
    (1272, [1273]), (1274, [1275]), (1276, [1277]), (1278, [1279]), (1280, [1281]), (1282, [1283]),
    (1284, [1285]), (1286, [1287]), (1288, [1289]), (1290, [1291]), (1292, [1293]), (1294, [1295]),
    (1296, [1297]), (1298, [1299]), (1300, [1301]), (1302, [1303]), (1304, [1305]), (1306, [1307]),
    (1308, [1309]), (1310, [1311]), (1312, [1313]), (1314, [1315]), (1316, [1317]), (1318, [1319]),
    (1320, [1321]), (1322, [1323]), (1324, [1325]), (1326, [1327]), (1329, [1377]), (1330, [1378]),
    (1331, [1379]), (1332, [1380]), (1333, [1381]), (1334, [1382]), (1335, [1383]), (1336, [1384]),
    (1337, [1385]), (1338, [1386]), (1339, [1387]), (1340, [1388]), (1341, [1389]), (1342, [1390]),
    (1343, [1391]), (1344, [1392]), (1345, [1393]), (1346, [1394]), (1347, [1395]), (1348, [1396]),
    (1349, [1397]), (1350, [1398]), (1351, [1399]), (1352, [1400]), (1353, [1401]), (1354, [1402]),
    (1355, [1403]), (1356, [1404]), (1357, [1405]), (1358, [1406]), (1359, [1407]), (1360, [1408]),
    (1361, [1409]), (1362, [1410]), (1363, [1411]), (1364, [1412]), (1365, [1413]), (1366, [1414]),
    (4256, [11520]), (4257, [11521]), (4258, [11522]), (4259, [11523]), (4260, [11524]), (4261, [11525]),
    (4262, [11526]), (4263, [11527]), (4264, [11528]), (4265, [11529]), (4266, [11530]), (4267, [11531]),
    (4268, [11532]), (4269, [11533]), (4270, [11534]), (4271, [11535]), (4272, [11536]), (4273, [11537]),
    (4274, [11538]), (4275, [11539]), (4276, [11540]), (4277, [11541]), (4278, [11542]), (4279, [11543]),
    (4280, [11544]), (4281, [11545]), (4282, [11546]), (4283, [11547]), (4284, [11548]), (4285, [11549]),
    (4286, [11550]), (4287, [11551]), (4288, [11552]), (4289, [11553]), (4290, [11554]), (4291, [11555]),
    (4292, [11556]), (4293, [11557]), (4295, [11559]), (4301, [11565]), (5024, [43888]), (5025, [43889]),
    (5026, [43890]), (5027, [43891]), (5028, [43892]), (5029, [43893]), (5030, [43894]), (5031, [43895]),
    (5032, [43896]), (5033, [43897]), (5034, [43898]), (5035, [43899]), (5036, [43900]), (5037, [43901]),
    (5038, [43902]), (5039, [43903]), (5040, [43904]), (5041, [43905]), (5042, [43906]), (5043, [43907]),
    (5044, [43908]), (5045, [43909]), (5046, [43910]), (5047, [43911]), (5048, [43912]), (5049, [43913]),
    (5050, [43914]), (5051, [43915]), (5052, [43916]), (5053, [43917]), (5054, [43918]), (5055, [43919]),
    (5056, [43920]), (5057, [43921]), (5058, [43922]), (5059, [43923]), (5060, [43924]), (5061, [43925]),
    (5062, [43926]), (5063, [43927]), (5064, [43928]), (5065, [43929]), (5066, [43930]), (5067, [43931]),
    (5068, [43932]), (5069, [43933]), (5070, [43934]), (5071, [43935]), (5072, [43936]), (5073, [43937]),
    (5074, [43938]), (5075, [43939]), (5076, [43940]), (5077, [43941]), (5078, [43942]), (5079, [43943]),
    (5080, [43944]), (5081, [43945]), (5082, [43946]), (5083, [43947]), (5084, [43948]), (5085, [43949]),
    (5086, [43950]), (5087, [43951]), (5088, [43952]), (5089, [43953]), (5090, [43954]), (5091, [43955]),
    (5092, [43956]), (5093, [43957]), (5094, [43958]), (5095, [43959]), (5096, [43960]), (5097, [43961]),
    (5098, [43962]), (5099, [43963]), (5100, [43964]), (5101, [43965]), (5102, [43966]), (5103, [43967]),
    (5104, [5112]), (5105, [5113]), (5106, [5114]), (5107, [5115]), (5108, [5116]), (5109, [5117]),
    (7312, [4304]), (7313, [4305]), (7314, [4306]), (7315, [4307]), (7316, [4308]), (7317, [4309]),
    (7318, [4310]), (7319, [4311]), (7320, [4312]), (7321, [4313]), (7322, [4314]), (7323, [4315]),
    (7324, [4316]), (7325, [4317]), (7326, [4318]), (7327, [4319]), (7328, [4320]), (7329, [4321]),
    (7330, [4322]), (7331, [4323]), (7332, [4324]), (7333, [4325]), (7334, [4326]), (7335, [4327]),
    (7336, [4328]), (7337, [4329]), (7338, [4330]), (7339, [4331]), (7340, [4332]), (7341, [4333]),
    (7342, [4334]), (7343, [4335]), (7344, [4336]), (7345, [4337]), (7346, [4338]), (7347, [4339]),
    (7348, [4340]), (7349, [4341]), (7350, [4342]), (7351, [4343]), (7352, [4344]), (7353, [4345]),
    (7354, [4346]), (7357, [4349]), (7358, [4350]), (7359, [4351]), (7680, [7681]), (7682, [7683]),
    (7684, [7685]), (7686, [7687]), (7688, [7689]), (7690, [7691]), (7692, [7693]), (7694, [7695]),
    (7696, [7697]), (7698, [7699]), (7700, [7701]), (7702, [7703]), (7704, [7705]), (7706, [7707]),
    (7708, [7709]), (7710, [7711]), (7712, [7713]), (7714, [7715]), (7716, [7717]), (7718, [7719]),
    (7720, [7721]), (7722, [7723]), (7724, [7725]), (7726, [7727]), (7728, [7729]), (7730, [7731]),
    (7732, [7733]), (7734, [7735]), (7736, [7737]), (7738, [7739]), (7740, [7741]), (7742, [7743]),
    (7744, [7745]), (7746, [7747]), (7748, [7749]), (7750, [7751]), (7752, [7753]), (7754, [7755]),
    (7756, [7757]), (7758, [7759]), (7760, [7761]), (7762, [7763]), (7764, [7765]), (7766, [7767]),
    (7768, [7769]), (7770, [7771]), (7772, [7773]), (7774, [7775]), (7776, [7777]), (7778, [7779]),
    (7780, [7781]), (7782, [7783]), (7784, [7785]), (7786, [7787]), (7788, [7789]), (7790, [7791]),
    (7792, [7793]), (7794, [7795]), (7796, [7797]), (7798, [7799]), (7800, [7801]), (7802, [7803]),
    (7804, [7805]), (7806, [7807]), (7808, [7809]), (7810, [7811]), (7812, [7813]), (7814, [7815]),
    (7816, [7817]), (7818, [7819]), (7820, [7821]), (7822, [7823]), (7824, [7825]), (7826, [7827]),
    (7828, [7829]), (7838, [223]), (7840, [7841]), (7842, [7843]), (7844, [7845]), (7846, [7847]),
    (7848, [7849]), (7850, [7851]), (7852, [7853]), (7854, [7855]), (7856, [7857]), (7858, [7859]),
    (7860, [7861]), (7862, [7863]), (7864, [7865]), (7866, [7867]), (7868, [7869]), (7870, [7871]),
    (7872, [7873]), (7874, [7875]), (7876, [7877]), (7878, [7879]), (7880, [7881]), (7882, [7883]),
    (7884, [7885]), (7886, [7887]), (7888, [7889]), (7890, [7891]), (7892, [7893]), (7894, [7895]),
    (7896, [7897]), (7898, [7899]), (7900, [7901]), (7902, [7903]), (7904, [7905]), (7906, [7907]),
    (7908, [7909]), (7910, [7911]), (7912, [7913]), (7914, [7915]), (7916, [7917]), (7918, [7919]),
    (7920, [7921]), (7922, [7923]), (7924, [7925]), (7926, [7927]), (7928, [7929]), (7930, [7931]),
    (7932, [7933]), (7934, [7935]), (7944, [7936]), (7945, [7937]), (7946, [7938]), (7947, [7939]),
    (7948, [7940]), (7949, [7941]), (7950, [7942]), (7951, [7943]), (7960, [7952]), (7961, [7953]),
    (7962, [7954]), (7963, [7955]), (7964, [7956]), (7965, [7957]), (7976, [7968]), (7977, [7969]),
    (7978, [7970]), (7979, [7971]), (7980, [7972]), (7981, [7973]), (7982, [7974]), (7983, [7975]),
    (7992, [7984]), (7993, [7985]), (7994, [7986]), (7995, [7987]), (7996, [7988]), (7997, [7989]),
    (7998, [7990]), (7999, [7991]), (8008, [8000]), (8009, [8001]), (8010, [8002]), (8011, [8003]),
    (8012, [8004]), (8013, [8005]), (8025, [8017]), (8027, [8019]), (8029, [8021]), (8031, [8023]),
    (8040, [8032]), (8041, [8033]), (8042, [8034]), (8043, [8035]), (8044, [8036]), (8045, [8037]),
    (8046, [8038]), (8047, [8039]), (8072, [8064]), (8073, [8065]), (8074, [8066]), (8075, [8067]),
    (8076, [8068]), (8077, [8069]), (8078, [8070]), (8079, [8071]), (8088, [8080]), (8089, [8081]),
    (8090, [8082]), (8091, [8083]), (8092, [8084]), (8093, [8085]), (8094, [8086]), (8095, [8087]),
    (8104, [8096]), (8105, [8097]), (8106, [8098]), (8107, [8099]), (8108, [8100]), (8109, [8101]),
    (8110, [8102]), (8111, [8103]), (8120, [8112]), (8121, [8113]), (8122, [8048]), (8123, [8049]),
    (8124, [8115]), (8136, [8050]), (8137, [8051]), (8138, [8052]), (8139, [8053]), (8140, [8131]),
    (8152, [8144]), (8153, [8145]), (8154, [8054]), (8155, [8055]), (8168, [8160]), (8169, [8161]),
    (8170, [8058]), (8171, [8059]), (8172, [8165]), (8184, [8056]), (8185, [8057]), (8186, [8060]),
    (8187, [8061]), (8188, [8179]), (8486, [969]), (8490, [107]), (8491, [229]), (8498, [8526]),
    (8544, [8560]), (8545, [8561]), (8546, [8562]), (8547, [8563]), (8548, [8564]), (8549, [8565]),
    (8550, [8566]), (8551, [8567]), (8552, [8568]), (8553, [8569]), (8554, [8570]), (8555, [8571]),
    (8556, [8572]), (8557, [8573]), (8558, [8574]), (8559, [8575]), (8579, [8580]), (9398, [9424]),
    (9399, [9425]), (9400, [9426]), (9401, [9427]), (9402, [9428]), (9403, [9429]), (9404, [9430]),
    (9405, [9431]), (9406, [9432]), (9407, [9433]), (9408, [9434]), (9409, [9435]), (9410, [9436]),
    (9411, [9437]), (9412, [9438]), (9413, [9439]), (9414, [9440]), (9415, [9441]), (9416, [9442]),
    (9417, [9443]), (9418, [9444]), (9419, [9445]), (9420, [9446]), (9421, [9447]), (9422, [9448]),
    (9423, [9449]), (11264, [11312]), (11265, [11313]), (11266, [11314]), (11267, [11315]), (11268, [11316]),
    (11269, [11317]), (11270, [11318]), (11271, [11319]), (11272, [11320]), (11273, [11321]), (11274, [11322]),
    (11275, [11323]), (11276, [11324]), (11277, [11325]), (11278, [11326]), (11279, [11327]), (11280, [11328]),
    (11281, [11329]), (11282, [11330]), (11283, [11331]), (11284, [11332]), (11285, [11333]), (11286, [11334]),
    (11287, [11335]), (11288, [11336]), (11289, [11337]), (11290, [11338]), (11291, [11339]), (11292, [11340]),
    (11293, [11341]), (11294, [11342]), (11295, [11343]), (11296, [11344]), (11297, [11345]), (11298, [11346]),
    (11299, [11347]), (11300, [11348]), (11301, [11349]), (11302, [11350]), (11303, [11351]), (11304, [11352]),
    (11305, [11353]), (11306, [11354]), (11307, [11355]), (11308, [11356]), (11309, [11357]), (11310, [11358]),
    (11311, [11359]), (11360, [11361]), (11362, [619]), (11363, [7549]), (11364, [637]), (11367, [11368]),
    (11369, [11370]), (11371, [11372]), (11373, [593]), (11374, [625]), (11375, [592]), (11376, [594]),
    (11378, [11379]), (11381, [11382]), (11390, [575]), (11391, [576]), (11392, [11393]), (11394, [11395]),
    (11396, [11397]), (11398, [11399]), (11400, [11401]), (11402, [11403]), (11404, [11405]), (11406, [11407]),
    (11408, [11409]), (11410, [11411]), (11412, [11413]), (11414, [11415]), (11416, [11417]), (11418, [11419]),
    (11420, [11421]), (11422, [11423]), (11424, [11425]), (11426, [11427]), (11428, [11429]), (11430, [11431]),
    (11432, [11433]), (11434, [11435]), (11436, [11437]), (11438, [11439]), (11440, [11441]), (11442, [11443]),
    (11444, [11445]), (11446, [11447]), (11448, [11449]), (11450, [11451]), (11452, [11453]), (11454, [11455]),
    (11456, [11457]), (11458, [11459]), (11460, [11461]), (11462, [11463]), (11464, [11465]), (11466, [11467]),
    (11468, [11469]), (11470, [11471]), (11472, [11473]), (11474, [11475]), (11476, [11477]), (11478, [11479]),
    (11480, [11481]), (11482, [11483]), (11484, [11485]), (11486, [11487]), (11488, [11489]), (11490, [11491]),
    (11499, [11500]), (11501, [11502]), (11506, [11507]), (42560, [42561]), (42562, [42563]), (42564, [42565]),
    (42566, [42567]), (42568, [42569]), (42570, [42571]), (42572, [42573]), (42574, [42575]), (42576, [42577]),
    (42578, [42579]), (42580, [42581]), (42582, [42583]), (42584, [42585]), (42586, [42587]), (42588, [42589]),
    (42590, [42591]), (42592, [42593]), (42594, [42595]), (42596, [42597]), (42598, [42599]), (42600, [42601]),
    (42602, [42603]), (42604, [42605]), (42624, [42625]), (42626, [42627]), (42628, [42629]), (42630, [42631]),
    (42632, [42633]), (42634, [42635]), (42636, [42637]), (42638, [42639]), (42640, [42641]), (42642, [42643]),
    (42644, [42645]), (42646, [42647]), (42648, [42649]), (42650, [42651]), (42786, [42787]), (42788, [42789]),
    (42790, [42791]), (42792, [42793]), (42794, [42795]), (42796, [42797]), (42798, [42799]), (42802, [42803]),
    (42804, [42805]), (42806, [42807]), (42808, [42809]), (42810, [42811]), (42812, [42813]), (42814, [42815]),
    (42816, [42817]), (42818, [42819]), (42820, [42821]), (42822, [42823]), (42824, [42825]), (42826, [42827]),
    (42828, [42829]), (42830, [42831]), (42832, [42833]), (42834, [42835]), (42836, [42837]), (42838, [42839]),
    (42840, [42841]), (42842, [42843]), (42844, [42845]), (42846, [42847]), (42848, [42849]), (42850, [42851]),
    (42852, [42853]), (42854, [42855]), (42856, [42857]), (42858, [42859]), (42860, [42861]), (42862, [42863]),
    (42873, [42874]), (42875, [42876]), (42877, [7545]), (42878, [42879]), (42880, [42881]), (42882, [42883]),
    (42884, [42885]), (42886, [42887]), (42891, [42892]), (42893, [613]), (42896, [42897]), (42898, [42899]),
    (42902, [42903]), (42904, [42905]), (42906, [42907]), (42908, [42909]), (42910, [42911]), (42912, [42913]),
    (42914, [42915]), (42916, [42917]), (42918, [42919]), (42920, [42921]), (42922, [614]), (42923, [604]),
    (42924, [609]), (42925, [620]), (42926, [618]), (42928, [670]), (42929, [647]), (42930, [669]),
    (42931, [43859]), (42932, [42933]), (42934, [42935]), (42936, [42937]), (42938, [42939]), (42940, [42941]),
    (42942, [42943]), (42944, [42945]), (42946, [42947]), (42948, [42900]), (42949, [642]), (42950, [7566]),
    (42951, [42952]), (42953, [42954]), (42960, [42961]), (42966, [42967]), (42968, [42969]), (42997, [42998]),
    (65313, [65345]), (65314, [65346]), (65315, [65347]), (65316, [65348]), (65317, [65349]), (65318, [65350]),
    (65319, [65351]), (65320, [65352]), (65321, [65353]), (65322, [65354]), (65323, [65355]), (65324, [65356]),
    (65325, [65357]), (65326, [65358]), (65327, [65359]), (65328, [65360]), (65329, [65361]), (65330, [65362]),
    (65331, [65363]), (65332, [65364]), (65333, [65365]), (65334, [65366]), (65335, [65367]), (65336, [65368]),
    (65337, [65369]), (65338, [65370]), (66560, [66600]), (66561, [66601]), (66562, [66602]), (66563, [66603]),
    (66564, [66604]), (66565, [66605]), (66566, [66606]), (66567, [66607]), (66568, [66608]), (66569, [66609]),
    (66570, [66610]), (66571, [66611]), (66572, [66612]), (66573, [66613]), (66574, [66614]), (66575, [66615]),
    (66576, [66616]), (66577, [66617]), (66578, [66618]), (66579, [66619]), (66580, [66620]), (66581, [66621]),
    (66582, [66622]), (66583, [66623]), (66584, [66624]), (66585, [66625]), (66586, [66626]), (66587, [66627]),
    (66588, [66628]), (66589, [66629]), (66590, [66630]), (66591, [66631]), (66592, [66632]), (66593, [66633]),
    (66594, [66634]), (66595, [66635]), (66596, [66636]), (66597, [66637]), (66598, [66638]), (66599, [66639]),
    (66736, [66776]), (66737, [66777]), (66738, [66778]), (66739, [66779]), (66740, [66780]), (66741, [66781]),
    (66742, [66782]), (66743, [66783]), (66744, [66784]), (66745, [66785]), (66746, [66786]), (66747, [66787]),
    (66748, [66788]), (66749, [66789]), (66750, [66790]), (66751, [66791]), (66752, [66792]), (66753, [66793]),
    (66754, [66794]), (66755, [66795]), (66756, [66796]), (66757, [66797]), (66758, [66798]), (66759, [66799]),
    (66760, [66800]), (66761, [66801]), (66762, [66802]), (66763, [66803]), (66764, [66804]), (66765, [66805]),
    (66766, [66806]), (66767, [66807]), (66768, [66808]), (66769, [66809]), (66770, [66810]), (66771, [66811]),
    (66928, [66967]), (66929, [66968]), (66930, [66969]), (66931, [66970]), (66932, [66971]), (66933, [66972]),
    (66934, [66973]), (66935, [66974]), (66936, [66975]), (66937, [66976]), (66938, [66977]), (66940, [66979]),
    (66941, [66980]), (66942, [66981]), (66943, [66982]), (66944, [66983]), (66945, [66984]), (66946, [66985]),
    (66947, [66986]), (66948, [66987]), (66949, [66988]), (66950, [66989]), (66951, [66990]), (66952, [66991]),
    (66953, [66992]), (66954, [66993]), (66956, [66995]), (66957, [66996]), (66958, [66997]), (66959, [66998]),
    (66960, [66999]), (66961, [67000]), (66962, [67001]), (66964, [67003]), (66965, [67004]), (68736, [68800]),
    (68737, [68801]), (68738, [68802]), (68739, [68803]), (68740, [68804]), (68741, [68805]), (68742, [68806]),
    (68743, [68807]), (68744, [68808]), (68745, [68809]), (68746, [68810]), (68747, [68811]), (68748, [68812]),
    (68749, [68813]), (68750, [68814]), (68751, [68815]), (68752, [68816]), (68753, [68817]), (68754, [68818]),
    (68755, [68819]), (68756, [68820]), (68757, [68821]), (68758, [68822]), (68759, [68823]), (68760, [68824]),
    (68761, [68825]), (68762, [68826]), (68763, [68827]), (68764, [68828]), (68765, [68829]), (68766, [68830]),
    (68767, [68831]), (68768, [68832]), (68769, [68833]), (68770, [68834]), (68771, [68835]), (68772, [68836]),
    (68773, [68837]), (68774, [68838]), (68775, [68839]), (68776, [68840]), (68777, [68841]), (68778, [68842]),
    (68779, [68843]), (68780, [68844]), (68781, [68845]), (68782, [68846]), (68783, [68847]), (68784, [68848]),
    (68785, [68849]), (68786, [68850]), (71840, [71872]), (71841, [71873]), (71842, [71874]), (71843, [71875]),
    (71844, [71876]), (71845, [71877]), (71846, [71878]), (71847, [71879]), (71848, [71880]), (71849, [71881]),
    (71850, [71882]), (71851, [71883]), (71852, [71884]), (71853, [71885]), (71854, [71886]), (71855, [71887]),
    (71856, [71888]), (71857, [71889]), (71858, [71890]), (71859, [71891]), (71860, [71892]), (71861, [71893]),
    (71862, [71894]), (71863, [71895]), (71864, [71896]), (71865, [71897]), (71866, [71898]), (71867, [71899]),
    (71868, [71900]), (71869, [71901]), (71870, [71902]), (71871, [71903]), (93760, [93792]), (93761, [93793]),
    (93762, [93794]), (93763, [93795]), (93764, [93796]), (93765, [93797]), (93766, [93798]), (93767, [93799]),
    (93768, [93800]), (93769, [93801]), (93770, [93802]), (93771, [93803]), (93772, [93804]), (93773, [93805]),
    (93774, [93806]), (93775, [93807]), (93776, [93808]), (93777, [93809]), (93778, [93810]), (93779, [93811]),
    (93780, [93812]), (93781, [93813]), (93782, [93814]), (93783, [93815]), (93784, [93816]), (93785, [93817]),
    (93786, [93818]), (93787, [93819]), (93788, [93820]), (93789, [93821]), (93790, [93822]), (93791, [93823]),
    (125184, [125218]), (125185, [125219]), (125186, [125220]), (125187, [125221]), (125188, [125222]),
    (125189, [125223]), (125190, [125224]), (125191, [125225]), (125192, [125226]), (125193, [125227]),
    (125194, [125228]), (125195, [125229]), (125196, [125230]), (125197, [125231]), (125198, [125232]),
    (125199, [125233]), (125200, [125234]), (125201, [125235]), (125202, [125236]), (125203, [125237]),
    (125204, [125238]), (125205, [125239]), (125206, [125240]), (125207, [125241]), (125208, [125242]),
    (125209, [125243]), (125210, [125244]), (125211, [125245]), (125212, [125246]), (125213, [125247]),
    (125214, [125248]), (125215, [125249]), (125216, [125250]), (125217, [125251])]

/-- Ranges of the code points that are cased in the sense of the
final-sigma rule of Python str.lower. -/
def casedRanges : List (Nat × Nat) :=
  [
    (65, 90), (97, 122), (170, 170), (181, 181), (186, 186), (192, 214), (216, 246), (248, 442), (444, 447),
    (452, 659), (661, 687), (880, 883), (886, 887), (891, 893), (895, 895), (902, 902), (904, 906), (908, 908),
    (910, 929), (931, 1013), (1015, 1153), (1162, 1327), (1329, 1366), (1376, 1416), (4256, 4293),
    (4295, 4295), (4301, 4301), (4304, 4346), (4349, 4351), (5024, 5109), (5112, 5117), (7296, 7304),
    (7312, 7354), (7357, 7359), (7424, 7467), (7531, 7543), (7545, 7578), (7680, 7957), (7960, 7965),
    (7968, 8005), (8008, 8013), (8016, 8023), (8025, 8025), (8027, 8027), (8029, 8029), (8031, 8061),
    (8064, 8116), (8118, 8124), (8126, 8126), (8130, 8132), (8134, 8140), (8144, 8147), (8150, 8155),
    (8160, 8172), (8178, 8180), (8182, 8188), (8450, 8450), (8455, 8455), (8458, 8467), (8469, 8469),
    (8473, 8477), (8484, 8484), (8486, 8486), (8488, 8488), (8490, 8493), (8495, 8500), (8505, 8505),
    (8508, 8511), (8517, 8521), (8526, 8526), (8544, 8575), (8579, 8580), (9398, 9449), (11264, 11387),
    (11390, 11492), (11499, 11502), (11506, 11507), (11520, 11557), (11559, 11559), (11565, 11565),
    (42560, 42605), (42624, 42651), (42786, 42863), (42865, 42887), (42891, 42894), (42896, 42954),
    (42960, 42961), (42963, 42963), (42965, 42969), (42997, 42998), (43002, 43002), (43824, 43866),
    (43872, 43880), (43888, 43967), (64256, 64262), (64275, 64279), (65313, 65338), (65345, 65370),
    (66560, 66639), (66736, 66771), (66776, 66811), (66928, 66938), (66940, 66954), (66956, 66962),
    (66964, 66965), (66967, 66977), (66979, 66993), (66995, 67001), (67003, 67004), (68736, 68786),
    (68800, 68850), (71840, 71903), (93760, 93823), (119808, 119892), (119894, 119964), (119966, 119967),
    (119970, 119970), (119973, 119974), (119977, 119980), (119982, 119993), (119995, 119995), (119997, 120003),
    (120005, 120069), (120071, 120074), (120077, 120084), (120086, 120092), (120094, 120121), (120123, 120126),
    (120128, 120132), (120134, 120134), (120138, 120144), (120146, 120485), (120488, 120512), (120514, 120538),
    (120540, 120570), (120572, 120596), (120598, 120628), (120630, 120654), (120656, 120686), (120688, 120712),
    (120714, 120744), (120746, 120770), (120772, 120779), (122624, 122633), (122635, 122654), (125184, 125251),
    (127280, 127305), (127312, 127337), (127344, 127369)]

/-- Ranges of the case-ignorable code points skipped by the final-sigma
rule of Python str.lower. -/
def caseIgnorableRanges : List (Nat × Nat) :=
  [
    (39, 39), (46, 46), (58, 58), (94, 94), (96, 96), (168, 168), (173, 173), (175, 175), (180, 180),
    (183, 184), (688, 879), (884, 885), (890, 890), (900, 901), (903, 903), (1155, 1161), (1369, 1369),
    (1375, 1375), (1425, 1469), (1471, 1471), (1473, 1474), (1476, 1477), (1479, 1479), (1524, 1524),
    (1536, 1541), (1552, 1562), (1564, 1564), (1600, 1600), (1611, 1631), (1648, 1648), (1750, 1757),
    (1759, 1768), (1770, 1773), (1807, 1807), (1809, 1809), (1840, 1866), (1958, 1968), (2027, 2037),
    (2042, 2042), (2045, 2045), (2070, 2093), (2137, 2139), (2184, 2184), (2192, 2193), (2200, 2207),
    (2249, 2306), (2362, 2362), (2364, 2364), (2369, 2376), (2381, 2381), (2385, 2391), (2402, 2403),
    (2417, 2417), (2433, 2433), (2492, 2492), (2497, 2500), (2509, 2509), (2530, 2531), (2558, 2558),
    (2561, 2562), (2620, 2620), (2625, 2626), (2631, 2632), (2635, 2637), (2641, 2641), (2672, 2673),
    (2677, 2677), (2689, 2690), (2748, 2748), (2753, 2757), (2759, 2760), (2765, 2765), (2786, 2787),
    (2810, 2815), (2817, 2817), (2876, 2876), (2879, 2879), (2881, 2884), (2893, 2893), (2901, 2902),
    (2914, 2915), (2946, 2946), (3008, 3008), (3021, 3021), (3072, 3072), (3076, 3076), (3132, 3132),
    (3134, 3136), (3142, 3144), (3146, 3149), (3157, 3158), (3170, 3171), (3201, 3201), (3260, 3260),
    (3263, 3263), (3270, 3270), (3276, 3277), (3298, 3299), (3328, 3329), (3387, 3388), (3393, 3396),
    (3405, 3405), (3426, 3427), (3457, 3457), (3530, 3530), (3538, 3540), (3542, 3542), (3633, 3633),
    (3636, 3642), (3654, 3662), (3761, 3761), (3764, 3772), (3782, 3782), (3784, 3789), (3864, 3865),
    (3893, 3893), (3895, 3895), (3897, 3897), (3953, 3966), (3968, 3972), (3974, 3975), (3981, 3991),
    (3993, 4028), (4038, 4038), (4141, 4144), (4146, 4151), (4153, 4154), (4157, 4158), (4184, 4185),
    (4190, 4192), (4209, 4212), (4226, 4226), (4229, 4230), (4237, 4237), (4253, 4253), (4348, 4348),
    (4957, 4959), (5906, 5908), (5938, 5939), (5970, 5971), (6002, 6003), (6068, 6069), (6071, 6077),
    (6086, 6086), (6089, 6099), (6103, 6103), (6109, 6109), (6155, 6159), (6211, 6211), (6277, 6278),
    (6313, 6313), (6432, 6434), (6439, 6440), (6450, 6450), (6457, 6459), (6679, 6680), (6683, 6683),
    (6742, 6742), (6744, 6750), (6752, 6752), (6754, 6754), (6757, 6764), (6771, 6780), (6783, 6783),
    (6823, 6823), (6832, 6862), (6912, 6915), (6964, 6964), (6966, 6970), (6972, 6972), (6978, 6978),
    (7019, 7027), (7040, 7041), (7074, 7077), (7080, 7081), (7083, 7085), (7142, 7142), (7144, 7145),
    (7149, 7149), (7151, 7153), (7212, 7219), (7222, 7223), (7288, 7293), (7376, 7378), (7380, 7392),
    (7394, 7400), (7405, 7405), (7412, 7412), (7416, 7417), (7468, 7530), (7544, 7544), (7579, 7679),
    (8125, 8125), (8127, 8129), (8141, 8143), (8157, 8159), (8173, 8175), (8189, 8190), (8203, 8207),
    (8216, 8217), (8228, 8228), (8231, 8231), (8234, 8238), (8288, 8292), (8294, 8303), (8305, 8305),
    (8319, 8319), (8336, 8348), (8400, 8432), (11388, 11389), (11503, 11505), (11631, 11631), (11647, 11647),
    (11744, 11775), (11823, 11823), (12293, 12293), (12330, 12333), (12337, 12341), (12347, 12347),
    (12441, 12446), (12540, 12542), (40981, 40981), (42232, 42237), (42508, 42508), (42607, 42610),
    (42612, 42621), (42623, 42623), (42652, 42655), (42736, 42737), (42752, 42785), (42864, 42864),
    (42888, 42890), (42994, 42996), (43000, 43001), (43010, 43010), (43014, 43014), (43019, 43019),
    (43045, 43046), (43052, 43052), (43204, 43205), (43232, 43249), (43263, 43263), (43302, 43309),
    (43335, 43345), (43392, 43394), (43443, 43443), (43446, 43449), (43452, 43453), (43471, 43471),
    (43493, 43494), (43561, 43566), (43569, 43570), (43573, 43574), (43587, 43587), (43596, 43596),
    (43632, 43632), (43644, 43644), (43696, 43696), (43698, 43700), (43703, 43704), (43710, 43711),
    (43713, 43713), (43741, 43741), (43756, 43757), (43763, 43764), (43766, 43766), (43867, 43871),
    (43881, 43883), (44005, 44005), (44008, 44008), (44013, 44013), (64286, 64286), (64434, 64450),
    (65024, 65039), (65043, 65043), (65056, 65071), (65106, 65106), (65109, 65109), (65279, 65279),
    (65287, 65287), (65294, 65294), (65306, 65306), (65342, 65342), (65344, 65344), (65392, 65392),
    (65438, 65439), (65507, 65507), (65529, 65531), (66045, 66045), (66272, 66272), (66422, 66426),
    (67456, 67461), (67463, 67504), (67506, 67514), (68097, 68099), (68101, 68102), (68108, 68111),
    (68152, 68154), (68159, 68159), (68325, 68326), (68900, 68903), (69291, 69292), (69446, 69456),
    (69506, 69509), (69633, 69633), (69688, 69702), (69744, 69744), (69747, 69748), (69759, 69761),
    (69811, 69814), (69817, 69818), (69821, 69821), (69826, 69826), (69837, 69837), (69888, 69890),
    (69927, 69931), (69933, 69940), (70003, 70003), (70016, 70017), (70070, 70078), (70089, 70092),
    (70095, 70095), (70191, 70193), (70196, 70196), (70198, 70199), (70206, 70206), (70367, 70367),
    (70371, 70378), (70400, 70401), (70459, 70460), (70464, 70464), (70502, 70508), (70512, 70516),
    (70712, 70719), (70722, 70724), (70726, 70726), (70750, 70750), (70835, 70840), (70842, 70842),
    (70847, 70848), (70850, 70851), (71090, 71093), (71100, 71101), (71103, 71104), (71132, 71133),
    (71219, 71226), (71229, 71229), (71231, 71232), (71339, 71339), (71341, 71341), (71344, 71349),
    (71351, 71351), (71453, 71455), (71458, 71461), (71463, 71467), (71727, 71735), (71737, 71738),
    (71995, 71996), (71998, 71998), (72003, 72003), (72148, 72151), (72154, 72155), (72160, 72160),
    (72193, 72202), (72243, 72248), (72251, 72254), (72263, 72263), (72273, 72278), (72281, 72283),
    (72330, 72342), (72344, 72345), (72752, 72758), (72760, 72765), (72767, 72767), (72850, 72871),
    (72874, 72880), (72882, 72883), (72885, 72886), (73009, 73014), (73018, 73018), (73020, 73021),
    (73023, 73029), (73031, 73031), (73104, 73105), (73109, 73109), (73111, 73111), (73459, 73460),
    (78896, 78904), (92912, 92916), (92976, 92982), (92992, 92995), (94031, 94031), (94095, 94111),
    (94176, 94177), (94179, 94180), (110576, 110579), (110581, 110587), (110589, 110590), (113821, 113822),
    (113824, 113827), (118528, 118573), (118576, 118598), (119143, 119145), (119155, 119170), (119173, 119179),
    (119210, 119213), (119362, 119364), (121344, 121398), (121403, 121452), (121461, 121461), (121476, 121476),
    (121499, 121503), (121505, 121519), (122880, 122886), (122888, 122904), (122907, 122913), (122915, 122916),
    (122918, 122922), (123184, 123197), (123566, 123566), (123628, 123631), (125136, 125142), (125252, 125259),
    (127995, 127999), (917505, 917505), (917536, 917631), (917760, 917999)]

/-- Membership of a code point in a sorted list of closed ranges. -/
def inRanges (rs : List (Nat × Nat)) (c : Nat) : Bool :=
  rs.any (fun p => p.1 ≤ c && c ≤ p.2)

/-- The cased property consulted by the final-sigma rule. -/
def isCased (c : Nat) : Bool :=
  inRanges casedRanges c

/-- The case-ignorable property consulted by the final-sigma rule. -/
def isCaseIgnorable (c : Nat) : Bool :=
  inRanges caseIgnorableRanges c

/-- The full lowercase mapping of one code point other than capital
sigma: the table image when present, the code point itself otherwise. -/
def toLowerFull (c : Nat) : List Nat :=
  (List.lookup c lowerTable).getD [c]

/-- The final-sigma context test of Python str.lower: a capital sigma
lowers to the final form when the nearest non-case-ignorable character
before it (the preceding characters are given in reverse order) is
cased and the nearest non-case-ignorable character after it, if any, is
not cased. -/
def finalSigma (before after : List Nat) : Bool :=
  match (before.dropWhile isCaseIgnorable).head? with
  | none => false
  | some b =>
    isCased b &&
      (match (after.dropWhile isCaseIgnorable).head? with
       | none => true
       | some a => !isCased a)

/-- Lowering of one character in its context, per Python str.lower:
capital sigma follows the final-sigma rule, everything else the full
mapping table. -/
def lowerAt (before : List Nat) (c : Nat) (after : List Nat) : List Nat :=
  if c = 931 then [if finalSigma before after then 962 else 963]
  else toLowerFull c

/-- Python str.lower over the characters of a string, threading the
reversed prefix for the context of each character. -/
def pyLowerGo (pre : List Nat) : List Nat → List Nat
  | [] => []
  | c :: rest => lowerAt pre c rest ++ pyLowerGo (c :: pre) rest

/-- Python str.lower. -/
def pyLower (l : List Nat) : List Nat :=
  pyLowerGo [] l

/-- The fence-stripping prelude of parse_json_response (app.py lines
82-90): strip, then drop a leading three-backtick-json marker, then a
leading bare fence, then a trailing bare fence. -/
def cleanResponse (r : List Nat) : List Nat :=
  let c0 := pyStrip r
  let c1 := if isPrefixList (codes "```json") c0 then c0.drop 7 else c0
  let c2 := if isPrefixList (codes "```") c1 then c1.drop 3 else c1
  if isSuffixList (codes "```") c2 then c2.take (c2.length - 3) else c2

/-- The brace-depth scan of parse_json_response (app.py lines 96-105):
walk the characters from absolute index i with a running (signed) depth
counter, returning the index one past the position where the counter
returns to zero, or none if it never does. -/
def braceGo : List Nat → Int → Nat → Option Nat
  | [], _, _ => none
  | c :: rest, count, i =>
    if c = 123 then braceGo rest (count + 1) (i + 1)
    else if c = 125 then
      if count - 1 = 0 then some (i + 1)
      else braceGo rest (count - 1) (i + 1)
    else braceGo rest count (i + 1)

/-- The slicing step of parse_json_response (app.py lines 92-108): find
the first opening brace; if present and the depth scan finds a matching
close, keep exactly that span, otherwise keep the whole text. -/
def sliceJson (rc : List Nat) : List Nat :=
  match pyFind rc 123 with
  | none => rc
  | some s =>
    match braceGo (rc.drop s) 0 s with
    | none => rc
    | some e => (rc.take e).drop s

/-- Parsed JSON values as produced by json.loads.  Strings are lists of
code points (Python str allows lone surrogates, hence Nat rather than
Char); numeric literals keep their matched lexeme, which determines the
Python value and suffices for every comparison made by the program. -/
inductive Json where
  | null
  | bool (b : Bool)
  | num (lexeme : List Nat)
  | str (s : List Nat)
  | arr (items : List Json)
  | obj (pairs : List (List Nat × Json))

/-- The JSON inter-token whitespace of the json module (space, tab,
newline, carriage return). -/
def jsonWs (c : Nat) : Bool :=
  c == 32 || c == 9 || c == 10 || c == 13

/-- Skip JSON whitespace. -/
def skipWs (l : List Nat) : List Nat :=
  l.dropWhile jsonWs

/-- Value of a hexadecimal digit. -/
def hexVal (c : Nat) : Option Nat :=
  if 48 ≤ c && c ≤ 57 then some (c - 48)
  else if 97 ≤ c && c ≤ 102 then some (c - 87)
  else if 65 ≤ c && c ≤ 70 then some (c - 55)
  else none

/-- Four hex digits of a \uXXXX escape. -/
def parseHex4 (l : List Nat) : Option (Nat × List Nat) :=
  match l with
  | a :: b :: c :: d :: r =>
    match hexVal a, hexVal b, hexVal c, hexVal d with
    | some x, some y, some z, some w => some (((x * 16 + y) * 16 + z) * 16 + w, r)
    | _, _, _, _ => none
  | _ => none

/-- The single-character escape table of json scanstring. -/
def escMap (e : Nat) : Option Nat :=
  if e = 34 then some 34
  else if e = 92 then some 92
  else if e = 47 then some 47
  else if e = 98 then some 8
  else if e = 102 then some 12
  else if e = 110 then some 10
  else if e = 114 then some 13
  else if e = 116 then some 9
  else none

/-- Body of a JSON string after its opening quote, per json scanstring in
strict mode: raw control characters are rejected, escapes are decoded,
and a high surrogate followed by a low-surrogate escape combines into one
code point.  Returns the decoded code points and the rest of the input
after the closing quote. -/
def parseStringBody : Nat → List Nat → Option (List Nat × List Nat)
  | 0, _ => none
  | fuel + 1, l =>
    match l with
    | [] => none
    | 34 :: r => some ([], r)
    | 92 :: e :: r2 =>
      if e = 117 then
        match parseHex4 r2 with
        | none => none
        | some (u, r3) =>
          if 55296 ≤ u && u ≤ 56319 then
            match r3 with
            | 92 :: 117 :: r4 =>
              match parseHex4 r4 with
              | some (u2, r5) =>
                if 56320 ≤ u2 && u2 ≤ 57343 then
                  (parseStringBody fuel r5).map
                    (fun p => ((65536 + (u - 55296) * 1024 + (u2 - 56320)) :: p.1, p.2))
                else (parseStringBody fuel r3).map (fun p => (u :: p.1, p.2))
              | none => (parseStringBody fuel r3).map (fun p => (u :: p.1, p.2))
            | _ => (parseStringBody fuel r3).map (fun p => (u :: p.1, p.2))
          else (parseStringBody fuel r3).map (fun p => (u :: p.1, p.2))
      else
        match escMap e with
        | some d => (parseStringBody fuel r2).map (fun p => (d :: p.1, p.2))
        | none => none
    | 92 :: [] => none
    | c :: r =>
      if c < 32 then none
      else (parseStringBody fuel r).map (fun p => (c :: p.1, p.2))

/-- A complete JSON string scan (fuel large enough for its input). -/
def scanString (l : List Nat) : Option (List Nat × List Nat) :=
  parseStringBody (l.length + 1) l

/-- Decimal digit test. -/
def isDigitCode (c : Nat) : Bool :=
  48 ≤ c && c ≤ 57

/-- Maximal run of decimal digits. -/
def spanDigits (l : List Nat) : List Nat × List Nat :=
  (l.takeWhile isDigitCode, l.dropWhile isDigitCode)

/-- Optional fraction group of the json NUMBER_RE regex: a dot followed
by at least one digit, otherwise nothing is consumed. -/
def numFrac (l : List Nat) : List Nat × List Nat :=
  match l with
  | 46 :: r =>
    match spanDigits r with
    | ([], _) => ([], l)
    | (ds, r2) => (46 :: ds, r2)
  | _ => ([], l)

/-- Optional exponent group of the json NUMBER_RE regex. -/
def numExp (l : List Nat) : List Nat × List Nat :=
  match l with
  | c :: r =>
    if c = 101 || c = 69 then
      match r with
      | s :: r2 =>
        if s = 43 || s = 45 then
          match spanDigits r2 with
          | ([], _) => ([], l)
          | (ds, r3) => (c :: s :: ds, r3)
        else
          match spanDigits r with
          | ([], _) => ([], l)
          | (ds, r3) => (c :: ds, r3)
      | [] => ([], l)
    else ([], l)
  | [] => ([], l)

/-- The json NUMBER_RE regex matched at the head of the input: optional
minus, an integer part that is 0 or starts with a nonzero digit, then
the optional fraction and exponent groups.  Returns the lexeme and the
rest. -/
def matchNumber (l : List Nat) : Option (List Nat × List Nat) :=
  let p := match l with
    | 45 :: r => (([45] : List Nat), r)
    | _ => (([] : List Nat), l)
  match p.2 with
  | 48 :: r =>
    let f := numFrac r
    let ex := numExp f.2
    some (p.1 ++ [48] ++ f.1 ++ ex.1, ex.2)
  | c :: r =>
    if 49 ≤ c && c ≤ 57 then
      let ds := spanDigits r
      let f := numFrac ds.2
      let ex := numExp f.2
      some (p.1 ++ (c :: ds.1) ++ f.1 ++ ex.1, ex.2)
    else none
  | [] => none

/-- A partially built JSON container during the scan: an object with the
members parsed so far and the key whose value is pending, or an array
with the elements parsed so far. -/
inductive JFrame where
  | inObj (acc : List (List Nat × Json)) (key : List Nat)
  | inArr (acc : List Json)

/-- The json scanner (py_make_scanner scan_once together with JSONObject
and JSONArray), defunctionalised with an explicit stack of open
containers.  Mode none parses a value at the head of the input; mode
some v feeds a finished value to the innermost open container and
consumes the following delimiter.  Grammar and error behaviour follow
the json module: objects are a brace, then a quoted key, a colon and a
value, separated by commas; arrays likewise with bare values; the
constants null, true, false, NaN, Infinity and -Infinity and the
NUMBER_RE lexemes are the scalar forms. -/
def jrun : Nat → Option Json → List Nat → List JFrame → Option (Json × List Nat)
  | 0, _, _, _ => none
  | fuel + 1, some v, l, stack =>
    match stack with
    | [] => some (v, l)
    | .inObj acc key :: rest =>
      match skipWs l with
      | 125 :: r => jrun fuel (some (.obj (acc ++ [(key, v)]))) r rest
      | 44 :: r =>
        match skipWs r with
        | 34 :: r2 =>
          match scanString r2 with
          | none => none
          | some (key2, r3) =>
            match skipWs r3 with
            | 58 :: r4 => jrun fuel none (skipWs r4) (.inObj (acc ++ [(key, v)]) key2 :: rest)
            | _ => none
        | _ => none
      | _ => none
    | .inArr acc :: rest =>
      match skipWs l with
      | 93 :: r => jrun fuel (some (.arr (acc ++ [v]))) r rest
      | 44 :: r => jrun fuel none (skipWs r) (.inArr (acc ++ [v]) :: rest)
      | _ => none
  | fuel + 1, none, l, stack =>
    match l with
    | [] => none
    | 34 :: r =>
      match scanString r with
      | some (s, rest) => jrun fuel (some (.str s)) rest stack
      | none => none
    | 123 :: r =>
      match skipWs r with
      | 125 :: r2 => jrun fuel (some (.obj [])) r2 stack
      | 34 :: r2 =>
        match scanString r2 with
        | none => none
        | some (key, r3) =>
          match skipWs r3 with
          | 58 :: r4 => jrun fuel none (skipWs r4) (.inObj [] key :: stack)
          | _ => none
      | _ => none
    | 91 :: r =>
      match skipWs r with
      | 93 :: r2 => jrun fuel (some (.arr [])) r2 stack
      | r2 => jrun fuel none r2 (.inArr [] :: stack)
    | l2 =>
      if isPrefixList (codes "null") l2 then jrun fuel (some .null) (l2.drop 4) stack
      else if isPrefixList (codes "true") l2 then jrun fuel (some (.bool true)) (l2.drop 4) stack
      else if isPrefixList (codes "false") l2 then jrun fuel (some (.bool false)) (l2.drop 5) stack
      else
        match matchNumber l2 with
        | some (lex, rest) => jrun fuel (some (.num lex)) rest stack
        | none =>
          if isPrefixList (codes "NaN") l2 then jrun fuel (some (.num (codes "NaN"))) (l2.drop 3) stack
          else if isPrefixList (codes "Infinity") l2 then jrun fuel (some (.num (codes "Infinity"))) (l2.drop 8) stack
          else if isPrefixList (codes "-Infinity") l2 then jrun fuel (some (.num (codes "-Infinity"))) (l2.drop 9) stack
          else none

/-- json.loads: skip leading whitespace, scan one value, skip trailing
whitespace, and require the input to be exhausted; any scan error or
extra data yields none (JSONDecodeError). -/
def jsonLoads (l : List Nat) : Option Json :=
  match jrun (l.length + 2) none (skipWs l) [] with
  | none => none
  | some (v, rest) => if skipWs rest = [] then some v else none

/-- parse_json_response (app.py lines 77-113): clean the response, slice
the first balanced brace span if one is found, strip, and parse; none
embeds the raised JSONDecodeError. -/
def parse_json_response (response : List Nat) : Option Json :=
  jsonLoads (pyStrip (sliceJson (cleanResponse response)))

/-- Outcome of one underlying model invocation: the returned completion
text, or the message text of the raised exception. -/
abbrev LlmOutcome := Except (List Nat) (List Nat)

/-- The body of safe_llm_call (app.py lines 58-64): return the model
result; on an exception, re-raise whether or not the message contains
"rate limit" (both branches of the classification raise). -/
def safeLlmBody (r : LlmOutcome) : LlmOutcome :=
  match r with
  | .ok v => .ok v
  | .error e =>
    if containsSub (pyLower e) (codes "rate limit") then .error e
    else .error e

/-- The tenacity policy on safe_llm_call: stop_after_attempt(3) with
reraise=True.  Given the outcome of each attempt, return the first
success, or after three failures the last error, together with the
number of attempts made.  The backoff waits do not affect the value. -/
def tenacityRetry3 (f : Nat → LlmOutcome) : LlmOutcome × Nat :=
  match f 0 with
  | .ok v => (.ok v, 1)
  | .error _ =>
    match f 1 with
    | .ok v => (.ok v, 2)
    | .error _ => (f 2, 3)

/-- safe_llm_call (app.py lines 55-64): the retry-decorated body, as a
function of the underlying per-attempt model behaviour. -/
def safe_llm_call (llm : Nat → LlmOutcome) : LlmOutcome × Nat :=
  tenacityRetry3 (fun n => safeLlmBody (llm n))

/-- handle_llm_error (app.py lines 67-74): choose the user-facing
message by case-insensitive substring tests on the error text. -/
def handle_llm_error (e : List Nat) : List Nat :=
  if containsSub (pyLower e) (codes "rate limit") then
    codes "⚠️ Our systems are busy (rate limit reached). Please wait 1 minute and try again."
  else if containsSub (pyLower e) (codes "invalid payload") then
    codes "🔧 Temporary model issue. Try a different job title or description."
  else
    codes "❌ Service unavailable. Please try again later."

/-- The Python membership test `needle in v` for a string needle and a
parsed JSON value: key membership on a dict, element equality on a list,
substring containment on a str, and a TypeError (none) on the other
types. -/
def pyIn (needle : List Nat) : Json → Option Bool
  | .obj pairs => some (pairs.any (fun p => p.1 == needle))
  | .arr items =>
    some (items.any (fun j => match j with | .str s => s == needle | _ => false))
  | .str s => some (containsSub s needle)
  | _ => none

/-- Whether a parsed JSON value is an object with the given top-level
key. -/
def hasKey (j : Json) (k : List Nat) : Bool :=
  match j with
  | .obj pairs => pairs.any (fun p => p.1 == k)
  | _ => false

/-- Key membership in an association list of object members. -/
def hasKeyPairs (ps : List (List Nat × Json)) (k : List Nat) : Bool :=
  ps.any (fun p => p.1 == k)

/-- The fallback value built by analyze_resume when parsing the model
response raises (app.py lines 242-248). -/
def degradedAnalysis (job_title response : List Nat) : Json :=
  .obj [(codes "analysis",
         .obj [(codes "target_role", .str job_title),
               (codes "overall_score", .str (codes "Unable to parse")),
               (codes "raw_response", .str response)])]

/-- The fallback value built by generate_cover_letter when parsing the
model response raises (app.py lines 279-282). -/
def degradedCover (response : List Nat) : Json :=
  .obj [(codes "cover_letter", .str response),
        (codes "company", .str (codes "Target Company"))]

/-- analyze_resume (app.py lines 219-253) as a function of the model
behaviour.  A transport failure after retries, an empty completion, or
a parsed value without the analysis field yields none; a parse error,
including a TypeError raised by the membership test on a non-container
value, is caught and yields the degraded fallback.  The prompt built
from the arguments only feeds the model, which the oracle abstracts. -/
def analyze_resume (llm : Nat → LlmOutcome) (job_title resume_text : List Nat) :
    Option Json :=
  match (safe_llm_call llm).1 with
  | .error _ => none
  | .ok response =>
    if response = [] then none
    else
      match parse_json_response response with
      | none => some (degradedAnalysis job_title response)
      | some parsed =>
        match pyIn (codes "analysis") parsed with
        | some true => some parsed
        | some false => none
        | none => some (degradedAnalysis job_title response)

/-- generate_cover_letter (app.py lines 255-287) as a function of the
model behaviour; the membership tests for the two required fields are
evaluated left to right with Python short-circuiting. -/
def generate_cover_letter (llm : Nat → LlmOutcome)
    (resume_text job_title job_description : List Nat) : Option Json :=
  match (safe_llm_call llm).1 with
  | .error _ => none
  | .ok response =>
    if response = [] then none
    else
      match parse_json_response response with
      | none => some (degradedCover response)
      | some parsed =>
        match pyIn (codes "cover_letter") parsed with
        | none => some (degradedCover response)
        | some false => none
        | some true =>
          match pyIn (codes "company") parsed with
          | none => some (degradedCover response)
          | some false => none
          | some true => some parsed

/-- The download filename for the exported cover letter (app.py line
459): "cover_letter_" plus the company name with spaces replaced by
underscores then lower-cased, plus ".docx". -/
def coverLetterFilename (company : List Nat) : List Nat :=
  codes "cover_letter_" ++ pyLower (company.map (fun c => if c = 32 then 95 else c)) ++ codes ".docx"

/-- Both branches of the exception classification in safe_llm_call
re-raise, so one attempt of the wrapped body behaves as the bare call. -/
theorem safeLlmBody_eq (r : LlmOutcome) : safeLlmBody r = r := by
  cases r <;> simp [safeLlmBody]

/-- Unfolding of analyze_resume once the transport outcome is a
nonempty completion. -/
theorem analyze_resume_ok (llm : Nat → LlmOutcome) (jt rt response : List Nat)
    (hok : (safe_llm_call llm).1 = .ok response) (hne : response ≠ []) :
    analyze_resume llm jt rt =
      (match parse_json_response response with
       | none => some (degradedAnalysis jt response)
       | some parsed =>
         match pyIn (codes "analysis") parsed with
         | some true => some parsed
         | some false => none
         | none => some (degradedAnalysis jt response)) := by
  unfold analyze_resume
  rw [hok]
  simp [hne]

/-- Unfolding of generate_cover_letter once the transport outcome is a
nonempty completion. -/
theorem generate_cover_letter_ok (llm : Nat → LlmOutcome)
    (rtx jt jd response : List Nat)
    (hok : (safe_llm_call llm).1 = .ok response) (hne : response ≠ []) :
    generate_cover_letter llm rtx jt jd =
      (match parse_json_response response with
       | none => some (degradedCover response)
       | some parsed =>
         match pyIn (codes "cover_letter") parsed with
         | none => some (degradedCover response)
         | some false => none
         | some true =>
           match pyIn (codes "company") parsed with
           | none => some (degradedCover response)
           | some false => none
           | some true => some parsed) := by
  unfold generate_cover_letter
  rw [hok]
  simp [hne]

/-- Claim C4: safe_llm_call, given an underlying call that raises a
rate-limit-flavoured error on the first two invocations and succeeds on
the third, returns the successful result after exactly 3 attempts
without raising; given an underlying call that always raises a
non-rate-limit error, it makes exactly 3 attempts and re-raises the
last error. -/
theorem safe_llm_call_retry_behaviour (msg r : List Nat) (errs : Nat → List Nat)
    (hrl : containsSub (pyLower msg) (codes "rate limit") = true)
    (hnrl : ∀ n, containsSub (pyLower (errs n)) (codes "rate limit") = false) :
    safe_llm_call (fun n => if n < 2 then .error msg else .ok r) = (.ok r, 3) ∧
    safe_llm_call (fun n => .error (errs n)) = (.error (errs 2), 3) := by
  constructor
  · simp [safe_llm_call, tenacityRetry3, safeLlmBody_eq]
  · simp [safe_llm_call, tenacityRetry3, safeLlmBody_eq]

/-- Witness for C4 at a concrete rate-limit message and a concrete
persistent failure. -/
theorem safe_llm_call_retry_behaviour_witness :
    safe_llm_call (fun n => if n < 2 then .error (codes "Rate limit exceeded") else .ok (codes "done")) =
      (.ok (codes "done"), 3) ∧
    safe_llm_call (fun _ => .error (codes "invalid payload")) = (.error (codes "invalid payload"), 3) := by
  have h := safe_llm_call_retry_behaviour (codes "Rate limit exceeded") (codes "done")
    (fun _ => codes "invalid payload") rfl (fun _ => rfl)
  exact ⟨h.1, h.2⟩

/-- Claim C5: for a parsed object, the analysis operation accepts it
unchanged exactly when it has the top-level key analysis, and the
cover-letter operation accepts it unchanged exactly when it has both
top-level keys cover_letter and company; in the missing-key cases the
operations reject with the error outcome (none with the corresponding
message). -/
theorem validation_requires_keys (llm : Nat → LlmOutcome)
    (jt rt rtx jd response : List Nat) (ps : List (List Nat × Json))
    (hok : (safe_llm_call llm).1 = .ok response)
    (hparse : parse_json_response response = some (.obj ps)) :
    (hasKeyPairs ps (codes "analysis") = true →
      analyze_resume llm jt rt = some (.obj ps)) ∧
    (hasKeyPairs ps (codes "analysis") = false →
      analyze_resume llm jt rt = none) ∧
    (hasKeyPairs ps (codes "cover_letter") = true →
      hasKeyPairs ps (codes "company") = true →
      generate_cover_letter llm rtx jt jd = some (.obj ps)) ∧
    ((hasKeyPairs ps (codes "cover_letter") = false ∨
      hasKeyPairs ps (codes "company") = false) →
      generate_cover_letter llm rtx jt jd = none) := by
  have hne : response ≠ [] := by
    intro h
    rw [h] at hparse
    exact Option.noConfusion ((show parse_json_response [] = none from rfl).symm.trans hparse)
  have ha : analyze_resume llm jt rt =
      (match pyIn (codes "analysis") (Json.obj ps) with
       | some true => some (Json.obj ps)
       | some false => none
       | none => some (degradedAnalysis jt response)) := by
    have h := analyze_resume_ok llm jt rt response hok hne
    rw [hparse] at h
    exact h
  have hc : generate_cover_letter llm rtx jt jd =
      (match pyIn (codes "cover_letter") (Json.obj ps) with
       | none => some (degradedCover response)
       | some false => none
       | some true =>
         match pyIn (codes "company") (Json.obj ps) with
         | none => some (degradedCover response)
         | some false => none
         | some true => some (Json.obj ps)) := by
    have h := generate_cover_letter_ok llm rtx jt jd response hok hne
    rw [hparse] at h
    exact h
  have hin : pyIn (codes "analysis") (Json.obj ps) = some (hasKeyPairs ps (codes "analysis")) := rfl
  have hcl : pyIn (codes "cover_letter") (Json.obj ps) = some (hasKeyPairs ps (codes "cover_letter")) := rfl
  have hco : pyIn (codes "company") (Json.obj ps) = some (hasKeyPairs ps (codes "company")) := rfl
  refine ⟨?_, ?_, ?_, ?_⟩
  · intro h
    rw [ha, hin, h]
  · intro h
    rw [ha, hin, h]
  · intro h1 h2
    rw [hc, hcl, h1, hco, h2]
  · intro h
    cases h with
    | inl h1 => rw [hc, hcl, h1]
    | inr h2 =>
      rw [hc, hcl, hco, h2]
      cases hasKeyPairs ps (codes "cover_letter") <;> rfl

/-- Witness for C5: a parsed object with only the analysis key is
accepted unchanged by the analysis operation and rejected by the
cover-letter operation. -/
theorem validation_requires_keys_witness :
    analyze_resume (fun _ => .ok (codes "\x7b\"analysis\": 1\x7d")) (codes "T") (codes "R") =
      some (Json.obj [(codes "analysis", Json.num [49])]) ∧
    generate_cover_letter (fun _ => .ok (codes "\x7b\"analysis\": 1\x7d"))
      (codes "R") (codes "T") (codes "D") = none := by
  have h := validation_requires_keys (fun _ => .ok (codes "\x7b\"analysis\": 1\x7d"))
    (codes "T") (codes "R") (codes "R") (codes "D") (codes "\x7b\"analysis\": 1\x7d")
    [(codes "analysis", Json.num [49])] rfl rfl
  exact ⟨h.1 rfl, h.2.2.2 (Or.inl rfl)⟩

/-- Claim C6: the fenced prose example extracts to the nested object,
and the object whose string value contains literal braces extracts in
full rather than as a mis-truncated slice. -/
theorem extraction_concrete_examples :
    parse_json_response (codes "Sure! Here is the result: ```json\n\x7b\"a\":\x7b\"b\":1\x7d\x7d\n``` Let me know if you need more.") =
      some (Json.obj [(codes "a", Json.obj [(codes "b", Json.num [49])])]) ∧
    parse_json_response (codes "\x7b\"text\": \"a \x7b b \x7d c\"\x7d") =
      some (Json.obj [(codes "text", Json.str (codes "a \x7b b \x7d c"))]) :=
  ⟨rfl, rfl⟩

/-- Claim C8: the rate-limit classification inside safe_llm_call is
behaviourally inert for retrying - the wrapper is observationally equal
to the bare call under the uniform 3-attempt policy - and the
case-insensitive substring match only selects the user-facing message
in handle_llm_error. -/
theorem rate_limit_classification_inert :
    (∀ llm, safe_llm_call llm = tenacityRetry3 llm) ∧
    (∀ e, containsSub (pyLower e) (codes "rate limit") = true →
      handle_llm_error e =
        codes "⚠️ Our systems are busy (rate limit reached). Please wait 1 minute and try again.") := by
  constructor
  · intro llm
    unfold safe_llm_call
    congr 1
    funext n
    exact safeLlmBody_eq (llm n)
  · intro e h
    simp [handle_llm_error, h]

/-- Witness for C8 at a concrete failing call and a concrete rate-limit
message. -/
theorem rate_limit_classification_inert_witness :
    safe_llm_call (fun _ => .error (codes "boom")) =
      tenacityRetry3 (fun _ => .error (codes "boom")) ∧
    handle_llm_error (codes "Rate limit hit") =
      codes "⚠️ Our systems are busy (rate limit reached). Please wait 1 minute and try again." :=
  ⟨rate_limit_classification_inert.1 _,
   rate_limit_classification_inert.2 (codes "Rate limit hit") rfl⟩

/-- The space-to-underscore replacement never produces a space. -/
theorem replSpace_ne_space (c : Nat) : (if c = 32 then 95 else c) ≠ 32 := by
  by_cases h : c = 32 <;> simp [h]

/-- Space and underscore are both not case-ignorable, so the
replacement preserves the case-ignorable property. -/
theorem isCaseIgnorable_repl (c : Nat) :
    isCaseIgnorable (if c = 32 then 95 else c) = isCaseIgnorable c := by
  by_cases h : c = 32
  · subst h
    decide
  · simp [h]

/-- Space and underscore are both not cased, so the replacement
preserves the cased property. -/
theorem isCased_repl (c : Nat) :
    isCased (if c = 32 then 95 else c) = isCased c := by
  by_cases h : c = 32
  · subst h
    decide
  · simp [h]

/-- Dropping case-ignorable characters commutes with the replacement. -/
theorem dropWhile_ign_map_repl (l : List Nat) :
    (l.map (fun c => if c = 32 then 95 else c)).dropWhile isCaseIgnorable =
      (l.dropWhile isCaseIgnorable).map (fun c => if c = 32 then 95 else c) := by
  induction l with
  | nil => rfl
  | cons a t ih =>
    simp only [List.map_cons, List.dropWhile_cons, isCaseIgnorable_repl]
    cases h : isCaseIgnorable a
    · simp [h]
    · simp [h, ih]

/-- The final-sigma context is unchanged by the replacement. -/
theorem finalSigma_map_repl (before after : List Nat) :
    finalSigma (before.map (fun c => if c = 32 then 95 else c))
        (after.map (fun c => if c = 32 then 95 else c)) =
      finalSigma before after := by
  unfold finalSigma
  rw [dropWhile_ign_map_repl, dropWhile_ign_map_repl, List.head?_map, List.head?_map]
  cases hb : (before.dropWhile isCaseIgnorable).head? <;>
    cases ha : (after.dropWhile isCaseIgnorable).head? <;>
      simp [isCased_repl]

/-- A successful association-list lookup comes from a member pair. -/
theorem mem_of_lookup_eq (l : List (Nat × List Nat)) (a : Nat) (b : List Nat)
    (h : List.lookup a l = some b) : (a, b) ∈ l := by
  induction l with
  | nil => exact Option.noConfusion h
  | cons p t ih =>
    obtain ⟨k, v⟩ := p
    simp only [List.lookup] at h
    by_cases hk : (a == k) = true
    · rw [hk] at h
      obtain rfl := Option.some.inj h
      have : a = k := eq_of_beq hk
      subst this
      exact List.mem_cons_self _ _
    · rw [Bool.eq_false_iff.mpr hk] at h
      exact List.mem_cons_of_mem _ (ih h)

/-- No lowercase image in the mapping table contains a space. -/
theorem lowerTable_no_space :
    lowerTable.all (fun p => p.2.all (fun x => !(x == 32))) = true := rfl

/-- Lower-casing a character other than a space never yields a space. -/
theorem toLowerFull_no_space (c : Nat) (hc : c ≠ 32) : 32 ∉ toLowerFull c := by
  unfold toLowerFull
  cases hl : List.lookup c lowerTable with
  | none =>
    simp only [Option.getD_none, List.mem_singleton]
    exact fun h => hc h.symm
  | some m =>
    simp only [Option.getD_some]
    intro hm
    have hmem := mem_of_lookup_eq lowerTable c m hl
    have hall := List.all_eq_true.mp lowerTable_no_space _ hmem
    have hx := List.all_eq_true.mp hall 32 hm
    simp at hx

/-- Lowering one character commutes with the space-to-underscore
replacement of the character and of its context. -/
theorem lowerAt_map_repl (pre : List Nat) (c : Nat) (rest : List Nat) :
    lowerAt (pre.map (fun x => if x = 32 then 95 else x)) (if c = 32 then 95 else c)
        (rest.map (fun x => if x = 32 then 95 else x)) =
      (lowerAt pre c rest).map (fun x => if x = 32 then 95 else x) := by
  by_cases hc : c = 32
  · subst hc
    rfl
  · rw [if_neg hc]
    by_cases hs : c = 931
    · subst hs
      unfold lowerAt
      rw [if_pos rfl, if_pos rfl, finalSigma_map_repl]
      cases finalSigma pre rest <;> rfl
    · unfold lowerAt
      rw [if_neg hs, if_neg hs]
      have h32 := toLowerFull_no_space c hc
      have hfix : ∀ x ∈ toLowerFull c, (if x = 32 then 95 else x) = x := by
        intro x hx
        by_cases hx32 : x = 32
        · subst hx32
          exact absurd hx h32
        · exact if_neg hx32
      rw [List.map_congr_left hfix]
      simp

/-- The str.lower scan commutes with the replacement. -/
theorem pyLowerGo_map_repl (l : List Nat) : ∀ pre : List Nat,
    pyLowerGo (pre.map (fun c => if c = 32 then 95 else c))
        (l.map (fun c => if c = 32 then 95 else c)) =
      (pyLowerGo pre l).map (fun c => if c = 32 then 95 else c) := by
  induction l with
  | nil => intro pre; rfl
  | cons c t ih =>
    intro pre
    simp only [List.map_cons, pyLowerGo]
    have ih2 := ih (c :: pre)
    rw [List.map_cons] at ih2
    rw [lowerAt_map_repl, ih2, List.map_append]

/-- Python str.lower commutes with the space-to-underscore
replacement: spaces and underscores are neither cased nor
case-ignorable, so they are invisible to the case mapping. -/
theorem pyLower_map_repl (l : List Nat) :
    pyLower (l.map (fun c => if c = 32 then 95 else c)) =
      (pyLower l).map (fun c => if c = 32 then 95 else c) :=
  pyLowerGo_map_repl l []

/-- Claim C10: for every company name string, the export filename is
cover_letter_ followed by the name with every space replaced by an
underscore and all characters lower-cased, followed by .docx; the
replacement and the lower-casing commute, so the transform is their
order-independent combination, and no space survives in the result. -/
theorem cover_letter_filename_derivation (company : List Nat) :
    coverLetterFilename company =
      codes "cover_letter_" ++
        pyLower (company.map (fun c => if c = 32 then 95 else c)) ++ codes ".docx" ∧
    coverLetterFilename company =
      codes "cover_letter_" ++
        (pyLower company).map (fun c => if c = 32 then 95 else c) ++ codes ".docx" ∧
    32 ∉ pyLower (company.map (fun c => if c = 32 then 95 else c)) := by
  refine ⟨rfl, ?_, ?_⟩
  · unfold coverLetterFilename
    rw [pyLower_map_repl]
  · rw [pyLower_map_repl]
    intro hmem
    obtain ⟨x, hx, hrx⟩ := List.mem_map.mp hmem
    exact replSpace_ne_space x hrx

/-- A response that parses cannot be the empty completion. -/
theorem response_ne_nil_of_parse (response : List Nat) (v : Json)
    (h : parse_json_response response = some v) : response ≠ [] := by
  intro he
  rw [he] at h
  exact Option.noConfusion ((show parse_json_response [] = none from rfl).symm.trans h)

/-- analyze_resume when the completion fails to parse: the degraded
fallback is returned. -/
theorem analyze_resume_parse_failed (llm : Nat → LlmOutcome)
    (jt rt response : List Nat)
    (hok : (safe_llm_call llm).1 = .ok response) (hne : response ≠ [])
    (hp : parse_json_response response = none) :
    analyze_resume llm jt rt = some (degradedAnalysis jt response) := by
  have h := analyze_resume_ok llm jt rt response hok hne
  rw [hp] at h
  exact h

/-- generate_cover_letter when the completion fails to parse. -/
theorem generate_cover_letter_parse_failed (llm : Nat → LlmOutcome)
    (rtx jt jd response : List Nat)
    (hok : (safe_llm_call llm).1 = .ok response) (hne : response ≠ [])
    (hp : parse_json_response response = none) :
    generate_cover_letter llm rtx jt jd = some (degradedCover response) := by
  have h := generate_cover_letter_ok llm rtx jt jd response hok hne
  rw [hp] at h
  exact h

/-- analyze_resume when the completion parses, as a function of the
membership test on the parsed value. -/
theorem analyze_resume_parsed (llm : Nat → LlmOutcome)
    (jt rt response : List Nat) (parsed : Json)
    (hok : (safe_llm_call llm).1 = .ok response) (hne : response ≠ [])
    (hp : parse_json_response response = some parsed) :
    analyze_resume llm jt rt =
      (match pyIn (codes "analysis") parsed with
       | some true => some parsed
       | some false => none
       | none => some (degradedAnalysis jt response)) := by
  have h := analyze_resume_ok llm jt rt response hok hne
  rw [hp] at h
  exact h

/-- generate_cover_letter when the completion parses. -/
theorem generate_cover_letter_parsed (llm : Nat → LlmOutcome)
    (rtx jt jd response : List Nat) (parsed : Json)
    (hok : (safe_llm_call llm).1 = .ok response) (hne : response ≠ [])
    (hp : parse_json_response response = some parsed) :
    generate_cover_letter llm rtx jt jd =
      (match pyIn (codes "cover_letter") parsed with
       | none => some (degradedCover response)
       | some false => none
       | some true =>
         match pyIn (codes "company") parsed with
         | none => some (degradedCover response)
         | some false => none
         | some true => some parsed) := by
  have h := generate_cover_letter_ok llm rtx jt jd response hok hne
  rw [hp] at h
  exact h

/-- Claim C2 (amended): a complete case analysis of both operations.
Null is returned on a transport failure after retries, on an empty
completion, and on a parsed value that fails the membership validation;
the degraded result is returned exactly on the remaining failure paths,
namely a JSON parse failure or a membership test that raises a
TypeError because the parsed value is not a container (the except
block around parsing also catches that TypeError). -/
theorem degraded_vs_null_outcomes (llm : Nat → LlmOutcome)
    (jt rt rtx jd : List Nat) :
    (∀ e, (safe_llm_call llm).1 = .error e →
      analyze_resume llm jt rt = none ∧ generate_cover_letter llm rtx jt jd = none) ∧
    ((safe_llm_call llm).1 = .ok [] →
      analyze_resume llm jt rt = none ∧ generate_cover_letter llm rtx jt jd = none) ∧
    (∀ response, (safe_llm_call llm).1 = .ok response → response ≠ [] →
      (parse_json_response response = none →
        analyze_resume llm jt rt = some (degradedAnalysis jt response) ∧
        generate_cover_letter llm rtx jt jd = some (degradedCover response)) ∧
      (∀ parsed, parse_json_response response = some parsed →
        (pyIn (codes "analysis") parsed = none →
          analyze_resume llm jt rt = some (degradedAnalysis jt response)) ∧
        (pyIn (codes "analysis") parsed = some false →
          analyze_resume llm jt rt = none) ∧
        (pyIn (codes "cover_letter") parsed = none →
          generate_cover_letter llm rtx jt jd = some (degradedCover response)) ∧
        (pyIn (codes "cover_letter") parsed = some true →
          pyIn (codes "company") parsed = none →
          generate_cover_letter llm rtx jt jd = some (degradedCover response)) ∧
        (pyIn (codes "cover_letter") parsed = some false →
          generate_cover_letter llm rtx jt jd = none) ∧
        (pyIn (codes "cover_letter") parsed = some true →
          pyIn (codes "company") parsed = some false →
          generate_cover_letter llm rtx jt jd = none))) := by
  refine ⟨?_, ?_, ?_⟩
  · intro e he
    constructor
    · unfold analyze_resume
      rw [he]
    · unfold generate_cover_letter
      rw [he]
  · intro he
    constructor
    · unfold analyze_resume
      rw [he]
      rfl
    · unfold generate_cover_letter
      rw [he]
      rfl
  · intro response hok hne
    constructor
    · intro hp
      exact ⟨analyze_resume_parse_failed llm jt rt response hok hne hp,
             generate_cover_letter_parse_failed llm rtx jt jd response hok hne hp⟩
    · intro parsed hp
      have ha := analyze_resume_parsed llm jt rt response parsed hok hne hp
      have hc := generate_cover_letter_parsed llm rtx jt jd response parsed hok hne hp
      refine ⟨?_, ?_, ?_, ?_, ?_, ?_⟩
      · intro h
        rw [ha, h]
      · intro h
        rw [ha, h]
      · intro h
        rw [hc, h]
      · intro h1 h2
        rw [hc, h1, h2]
      · intro h
        rw [hc, h]
      · intro h1 h2
        rw [hc, h1, h2]

/-- Witness for C2 (amended): the completion 1 parses as a bare number,
the membership test then raises the TypeError, and both operations
return the degraded result; a parsed object lacking the analysis key
yields null. -/
theorem degraded_vs_null_outcomes_witness :
    analyze_resume (fun _ => .ok (codes "1")) (codes "T") (codes "R") =
      some (degradedAnalysis (codes "T") (codes "1")) ∧
    generate_cover_letter (fun _ => .ok (codes "1")) (codes "R") (codes "T") (codes "D") =
      some (degradedCover (codes "1")) ∧
    analyze_resume (fun _ => .ok (codes "\x7b\"x\": 1\x7d")) (codes "T") (codes "R") = none := by
  have h1 := (degraded_vs_null_outcomes (fun _ => .ok (codes "1"))
    (codes "T") (codes "R") (codes "R") (codes "D")).2.2 (codes "1") rfl (by decide)
  have h2 := h1.2 (Json.num [49]) rfl
  have h3 := (degraded_vs_null_outcomes (fun _ => .ok (codes "\x7b\"x\": 1\x7d"))
    (codes "T") (codes "R") (codes "R") (codes "D")).2.2 (codes "\x7b\"x\": 1\x7d") rfl (by decide)
  have h4 := h3.2 (Json.obj [(codes "x", Json.num [49])]) rfl
  exact ⟨h2.1 rfl, h2.2.2.1 rfl, h4.2.1 rfl⟩

/-- Counterexample to C2 as stated: the transport succeeds on the first
attempt with a well-formed object that merely lacks the analysis field,
yet analyze_resume returns null instead of a degraded result. -/
theorem validation_failure_returns_null_counterexample :
    (safe_llm_call (fun _ => .ok (codes "\x7b\"x\": 1\x7d"))).1 =
      .ok (codes "\x7b\"x\": 1\x7d") ∧
    analyze_resume (fun _ => .ok (codes "\x7b\"x\": 1\x7d")) (codes "T") (codes "R") = none :=
  ⟨rfl, rfl⟩

/-- Claim C7 (amended): when parsing fails, the analysis operation
carries the raw model text under raw_response inside the analysis
object, while the cover-letter operation carries it as the value of
cover_letter (with company defaulted) and has no raw_response field. -/
theorem degraded_result_raw_fields (llm : Nat → LlmOutcome)
    (jt rt rtx jd response : List Nat)
    (hok : (safe_llm_call llm).1 = .ok response) (hne : response ≠ [])
    (hp : parse_json_response response = none) :
    analyze_resume llm jt rt =
      some (Json.obj [(codes "analysis",
        Json.obj [(codes "target_role", Json.str jt),
                  (codes "overall_score", Json.str (codes "Unable to parse")),
                  (codes "raw_response", Json.str response)])]) ∧
    generate_cover_letter llm rtx jt jd =
      some (Json.obj [(codes "cover_letter", Json.str response),
                      (codes "company", Json.str (codes "Target Company"))]) ∧
    hasKey (degradedCover response) (codes "raw_response") = false :=
  ⟨analyze_resume_parse_failed llm jt rt response hok hne hp,
   generate_cover_letter_parse_failed llm rtx jt jd response hok hne hp,
   rfl⟩

/-- Witness for C7 (amended) at a concrete unparsable completion. -/
theorem degraded_result_raw_fields_witness :
    analyze_resume (fun _ => .ok (codes "not json")) (codes "T") (codes "R") =
      some (Json.obj [(codes "analysis",
        Json.obj [(codes "target_role", Json.str (codes "T")),
                  (codes "overall_score", Json.str (codes "Unable to parse")),
                  (codes "raw_response", Json.str (codes "not json"))])]) ∧
    generate_cover_letter (fun _ => .ok (codes "not json")) (codes "R") (codes "T") (codes "D") =
      some (Json.obj [(codes "cover_letter", Json.str (codes "not json")),
                      (codes "company", Json.str (codes "Target Company"))]) := by
  have h := degraded_result_raw_fields (fun _ => .ok (codes "not json"))
    (codes "T") (codes "R") (codes "R") (codes "D") (codes "not json") rfl (by decide) rfl
  exact ⟨h.1, h.2.1⟩

/-- Counterexample to C7 as stated: the cover-letter degraded result has
no raw_response field at all - the raw text is stored under
cover_letter instead. -/
theorem cover_degraded_without_raw_response :
    generate_cover_letter (fun _ => .ok (codes "not json")) (codes "R") (codes "T") (codes "D") =
      some (degradedCover (codes "not json")) ∧
    hasKey (degradedCover (codes "not json")) (codes "raw_response") = false :=
  ⟨rfl, rfl⟩

/-- Claim C9 (amended): every non-null value returned by either
operation passes the Python membership test for its required field
names (key membership when the value is an object, element or substring
containment otherwise); the degraded fallbacks are objects with the
keys present. -/
theorem returned_values_pass_membership :
    (∀ llm jt rt v, analyze_resume llm jt rt = some v →
      pyIn (codes "analysis") v = some true) ∧
    (∀ llm rtx jt jd v, generate_cover_letter llm rtx jt jd = some v →
      pyIn (codes "cover_letter") v = some true ∧
      pyIn (codes "company") v = some true) := by
  constructor
  · intro llm jt rt v h
    cases hc : (safe_llm_call llm).1 with
    | error e =>
      have hnone : analyze_resume llm jt rt = none := by
        unfold analyze_resume
        rw [hc]
      rw [hnone] at h
      exact Option.noConfusion h
    | ok response =>
      by_cases hne : response = []
      · have hnone : analyze_resume llm jt rt = none := by
          unfold analyze_resume
          rw [hc]
          simp [hne]
        rw [hnone] at h
        exact Option.noConfusion h
      · cases hp : parse_json_response response with
        | none =>
          rw [analyze_resume_parse_failed llm jt rt response hc hne hp] at h
          obtain rfl := Option.some.inj h
          rfl
        | some parsed =>
          rw [analyze_resume_parsed llm jt rt response parsed hc hne hp] at h
          cases hin : pyIn (codes "analysis") parsed with
          | none =>
            rw [hin] at h
            obtain rfl := Option.some.inj h
            rfl
          | some b =>
            cases b with
            | false =>
              rw [hin] at h
              exact Option.noConfusion h
            | true =>
              rw [hin] at h
              obtain rfl := Option.some.inj h
              exact hin
  · intro llm rtx jt jd v h
    cases hc : (safe_llm_call llm).1 with
    | error e =>
      have hnone : generate_cover_letter llm rtx jt jd = none := by
        unfold generate_cover_letter
        rw [hc]
      rw [hnone] at h
      exact Option.noConfusion h
    | ok response =>
      by_cases hne : response = []
      · have hnone : generate_cover_letter llm rtx jt jd = none := by
          unfold generate_cover_letter
          rw [hc]
          simp [hne]
        rw [hnone] at h
        exact Option.noConfusion h
      · cases hp : parse_json_response response with
        | none =>
          rw [generate_cover_letter_parse_failed llm rtx jt jd response hc hne hp] at h
          obtain rfl := Option.some.inj h
          exact ⟨rfl, rfl⟩
        | some parsed =>
          rw [generate_cover_letter_parsed llm rtx jt jd response parsed hc hne hp] at h
          cases hin1 : pyIn (codes "cover_letter") parsed with
          | none =>
            rw [hin1] at h
            obtain rfl := Option.some.inj h
            exact ⟨rfl, rfl⟩
          | some b1 =>
            cases b1 with
            | false =>
              rw [hin1] at h
              exact Option.noConfusion h
            | true =>
              rw [hin1] at h
              cases hin2 : pyIn (codes "company") parsed with
              | none =>
                rw [hin2] at h
                obtain rfl := Option.some.inj h
                exact ⟨rfl, rfl⟩
              | some b2 =>
                cases b2 with
                | false =>
                  rw [hin2] at h
                  exact Option.noConfusion h
                | true =>
                  rw [hin2] at h
                  obtain rfl := Option.some.inj h
                  exact ⟨hin1, hin2⟩

/-- Witness for C9 (amended): a returned string value and a degraded
object both pass the membership test. -/
theorem returned_values_pass_membership_witness :
    pyIn (codes "analysis") (Json.str (codes "analysis")) = some true ∧
    pyIn (codes "cover_letter") (degradedCover (codes "oops")) = some true :=
  ⟨returned_values_pass_membership.1 (fun _ => .ok (codes "\"analysis\""))
     (codes "T") (codes "R") (Json.str (codes "analysis")) rfl,
   (returned_values_pass_membership.2 (fun _ => .ok (codes "oops"))
     (codes "R") (codes "T") (codes "D") (degradedCover (codes "oops")) rfl).1⟩

/-- Counterexample to C9 as stated: a completion that is a bare JSON
string passes the substring-flavoured membership test, so the
operations return a non-null value that is not an object and has no
top-level keys at all. -/
theorem non_object_passes_validation :
    analyze_resume (fun _ => .ok (codes "\"analysis\"")) (codes "T") (codes "R") =
      some (Json.str (codes "analysis")) ∧
    hasKey (Json.str (codes "analysis")) (codes "analysis") = false ∧
    generate_cover_letter (fun _ => .ok (codes "\"cover_letter company\""))
      (codes "R") (codes "T") (codes "D") =
      some (Json.str (codes "cover_letter company")) ∧
    hasKey (Json.str (codes "cover_letter company")) (codes "cover_letter") = false :=
  ⟨rfl, rfl, rfl, rfl⟩

/-- Claim C3 (amended): the truncated object raises, and when no
opening brace is found the whole cleaned text is handed to the JSON
parser unsliced, so extraction fails exactly when that final parse
fails - which a brace-free valid JSON document does not. -/
theorem extraction_failure_characterisation :
    parse_json_response (codes "\x7b\"a\": \x7b\"b\": 1\x7d") = none ∧
    (∀ r, pyFind (cleanResponse r) 123 = none →
      parse_json_response r = jsonLoads (pyStrip (cleanResponse r))) := by
  constructor
  · rfl
  · intro r h
    unfold parse_json_response sliceJson
    rw [h]

/-- Witness for C3 (amended): a brace-free array input takes the
unsliced path and parses successfully. -/
theorem extraction_failure_characterisation_witness :
    parse_json_response (codes "[1, 2]") =
      some (Json.arr [Json.num [49], Json.num [50]]) :=
  (extraction_failure_characterisation.2 (codes "[1, 2]") rfl).trans rfl

/-- Counterexample to C3 as stated: an input with no opening brace on
which extraction succeeds rather than raising. -/
theorem no_brace_extraction_succeeds :
    pyFind (cleanResponse (codes "[1, 2]")) 123 = none ∧
    parse_json_response (codes "[1, 2]") =
      some (Json.arr [Json.num [49], Json.num [50]]) :=
  ⟨rfl, rfl⟩

/-- Finding a target character past a prefix that avoids it. -/
theorem pyFind_append_no_hit (p1 rest : List Nat) (t : Nat)
    (hp : ∀ c ∈ p1, c ≠ t) :
    pyFind (p1 ++ t :: rest) t = some p1.length := by
  induction p1 with
  | nil => simp [pyFind]
  | cons a p ih =>
    have ha : a ≠ t := hp a (List.mem_cons_self a p)
    simp [pyFind, ha, ih fun c hc => hp c (List.mem_cons_of_mem a hc)]

/-- A depth scan that closes within a list is unaffected by appending a
tail. -/
theorem braceGo_append (j p2 : List Nat) (d : Int) (i e : Nat)
    (h : braceGo j d i = some e) : braceGo (j ++ p2) d i = some e := by
  induction j generalizing d i with
  | nil => exact Option.noConfusion h
  | cons c rest ih =>
    simp only [List.cons_append, braceGo] at h ⊢
    by_cases h1 : c = 123
    · rw [if_pos h1] at h ⊢
      exact ih (d + 1) (i + 1) h
    · rw [if_neg h1] at h ⊢
      by_cases h2 : c = 125
      · rw [if_pos h2] at h ⊢
        by_cases h3 : d - 1 = 0
        · rw [if_pos h3] at h ⊢
          exact h
        · rw [if_neg h3] at h ⊢
          exact ih (d - 1) (i + 1) h
      · rw [if_neg h2] at h ⊢
        exact ih d (i + 1) h

/-- Shifting the starting index of the depth scan shifts its result. -/
theorem braceGo_add (j : List Nat) (d : Int) (i k e : Nat)
    (h : braceGo j d i = some e) : braceGo j d (i + k) = some (e + k) := by
  induction j generalizing d i with
  | nil => exact Option.noConfusion h
  | cons c rest ih =>
    simp only [braceGo] at h ⊢
    by_cases h1 : c = 123
    · rw [if_pos h1] at h ⊢
      rw [show i + k + 1 = i + 1 + k by omega]
      exact ih (d + 1) (i + 1) h
    · rw [if_neg h1] at h ⊢
      by_cases h2 : c = 125
      · rw [if_pos h2] at h ⊢
        by_cases h3 : d - 1 = 0
        · rw [if_pos h3] at h ⊢
          obtain rfl := Option.some.inj h
          exact congrArg some (by omega)
        · rw [if_neg h3] at h ⊢
          rw [show i + k + 1 = i + 1 + k by omega]
          exact ih (d - 1) (i + 1) h
      · rw [if_neg h2] at h ⊢
        rw [show i + k + 1 = i + 1 + k by omega]
        exact ih d (i + 1) h

/-- A text that opens with a brace and closes with one is fixed by
Python strip. -/
theorem pyStrip_fixed (j t : List Nat)
    (hhead : j = 123 :: t) (hlast : j.getLast? = some 125) :
    pyStrip j = j := by
  have h1 : pyLstrip j = j := by
    rw [hhead]
    simp [pyLstrip, List.dropWhile_cons, show pyIsSpace 123 = false from rfl]
  have h2 : pyRstrip j = j := by
    have hrev : j.reverse.head? = some 125 := by
      rw [List.head?_reverse]
      exact hlast
    cases hr : j.reverse with
    | nil =>
      rw [hr] at hrev
      exact Option.noConfusion hrev
    | cons a tr =>
      rw [hr] at hrev
      obtain rfl : a = 125 := Option.some.inj hrev.symm |>.symm
      unfold pyRstrip
      rw [hr, List.dropWhile_cons]
      simp only [show pyIsSpace 125 = false from rfl, Bool.false_eq_true, if_false]
      rw [← hr, List.reverse_reverse]
  unfold pyStrip
  rw [h1, h2]

/-- The slicing step recovers an embedded brace-balanced span exactly
when the leading prose avoids opening braces and the depth scan over
the span closes at its end. -/
theorem sliceJson_embedded (p1 j p2 t : List Nat)
    (hhead : j = 123 :: t)
    (hp1 : ∀ c ∈ p1, c ≠ 123)
    (hscan : braceGo j 0 0 = some j.length) :
    sliceJson (p1 ++ j ++ p2) = j := by
  unfold sliceJson
  have hfind : pyFind (p1 ++ j ++ p2) 123 = some p1.length := by
    rw [hhead, List.append_assoc, List.cons_append]
    exact pyFind_append_no_hit p1 (t ++ p2) 123 hp1
  rw [hfind]
  have hdrop : (p1 ++ j ++ p2).drop p1.length = j ++ p2 := by
    rw [List.append_assoc]
    exact List.drop_left p1 (j ++ p2)
  have hbr : braceGo (j ++ p2) 0 p1.length = some (j.length + p1.length) := by
    have h1 := braceGo_append j p2 0 0 j.length hscan
    have h2 := braceGo_add (j ++ p2) 0 0 p1.length j.length h1
    simpa using h2
  have htake : (p1 ++ j ++ p2).take (j.length + p1.length) = p1 ++ j := by
    rw [Nat.add_comm, List.append_assoc, List.take_append, List.take_left]
  show (match braceGo ((p1 ++ j ++ p2).drop p1.length) 0 p1.length with
        | none => p1 ++ j ++ p2
        | some e => ((p1 ++ j ++ p2).take e).drop p1.length) = j
  rw [hdrop, hbr]
  show ((p1 ++ j ++ p2).take (j.length + p1.length)).drop p1.length = j
  rw [htake, List.drop_left]

/-- Claim C1 (amended): extraction returns the embedded object whenever
the cleaned input splits into prose with no opening brace, a JSON
object text over which the textual depth scan closes exactly at its
end, and arbitrary trailing prose.  (The depth-scan condition is forced
by the counterexample: the scan is not aware of string literals.) -/
theorem parse_json_response_extracts_embedded (s p1 j p2 t : List Nat) (v : Json)
    (hclean : cleanResponse s = p1 ++ j ++ p2)
    (hp1 : ∀ c ∈ p1, c ≠ 123)
    (hhead : j = 123 :: t)
    (hlast : j.getLast? = some 125)
    (hscan : braceGo j 0 0 = some j.length)
    (hparse : jsonLoads j = some v) :
    parse_json_response s = some v := by
  unfold parse_json_response
  rw [hclean, sliceJson_embedded p1 j p2 t hhead hp1 hscan,
      pyStrip_fixed j t hhead hlast, hparse]

/-- Witness for C1 (amended): an object embedded in brace-free prose is
extracted exactly. -/
theorem parse_json_response_extracts_embedded_witness :
    parse_json_response (codes "Result: \x7b\"a\":1\x7d thanks") =
      some (Json.obj [(codes "a", Json.num [49])]) :=
  parse_json_response_extracts_embedded
    (codes "Result: \x7b\"a\":1\x7d thanks")
    (codes "Result: ") (codes "\x7b\"a\":1\x7d") (codes " thanks")
    (codes "\"a\":1\x7d")
    (Json.obj [(codes "a", Json.num [49])])
    rfl (by decide) rfl rfl rfl rfl

/-- Counterexample to C1 as stated: a well-formed object whose string
value contains a closing brace defeats the depth scan, and a
well-formed object preceded by prose containing braces is missed; in
both cases extraction fails although json.loads accepts the object. -/
theorem well_formed_objects_extraction_fails :
    jsonLoads (codes "\x7b\"a\": \"\x7d\"\x7d") =
      some (Json.obj [(codes "a", Json.str [125])]) ∧
    parse_json_response (codes "\x7b\"a\": \"\x7d\"\x7d") = none ∧
    jsonLoads (codes "\x7b\"a\":1\x7d") =
      some (Json.obj [(codes "a", Json.num [49])]) ∧
    parse_json_response (codes "see \x7boops\x7d here \x7b\"a\":1\x7d") = none :=
  ⟨rfl, rfl, rfl, rfl⟩
